import Mathlib

/-!
Verification of the recipe content cache and translation-memoization layer of
the Recipe-Finder-AI repository.

The embedding models the module-level mutable state of
`src/services/translationService.ts` (which bundles the translation memo and
the gemini recipe service), `src/services/imageService.ts`, and the staleness
guard of `src/hooks/useRecipe.ts` as explicit state threaded through pure
functions.  JavaScript `Map`s become association lists with JS `Map` semantics
(update in place for an existing key, append for a new one); `Date.now()`
becomes an explicit `now : Nat` argument (milliseconds); the two external
providers (Gemini generation/translation, Unsplash search) become oracle
functions in an `Env` record, where a `none` result stands for a thrown
error, an unavailable client, or a response whose JSON parse throws, and
`some v` stands for a response whose JSON parse produced the value `v`.
Provider-call counters are carried in the state so "performs zero provider
calls" is expressible.
-/

namespace RecipeFinder

/-- RecipeSummary from src/types: id, name, category, shortDescription,
prepTime, calories (all strings). -/
structure RecipeSummary where
  id : String
  name : String
  category : String
  shortDescription : String
  prepTime : String
  calories : String
deriving DecidableEq

/-- RecipeDetail from src/types: the summary fields plus ingredients,
instructions, tips. -/
structure RecipeDetail where
  id : String
  name : String
  category : String
  shortDescription : String
  prepTime : String
  calories : String
  ingredients : List String
  instructions : List String
  tips : List String
deriving DecidableEq

/-! Association-list model of a JavaScript `Map` with string keys:
`assocGet` is `Map.get`, `assocSet` is `Map.set` (replace in place when the
key is present, append otherwise — JS Maps iterate in insertion order), and
`assocDelete` is `Map.delete`. -/

/-- JS `Map.get`. -/
def assocGet {α : Type} : List (String × α) → String → Option α
  | [], _ => none
  | e :: rest, k => if e.1 == k then some e.2 else assocGet rest k

/-- JS `Map.set`. -/
def assocSet {α : Type} : List (String × α) → String → α → List (String × α)
  | [], k, v => [(k, v)]
  | e :: rest, k, v => if e.1 == k then (k, v) :: rest else e :: assocSet rest k v

/-- JS `Map.delete`. -/
def assocDelete {α : Type} : List (String × α) → String → List (String × α)
  | [], _ => []
  | e :: rest, k => if e.1 == k then rest else e :: assocDelete rest k

theorem assocDelete_sublist {α : Type} (m : List (String × α)) (k : String) :
    List.Sublist (assocDelete m k) m := by
  induction m with
  | nil => exact List.Sublist.refl _
  | cons e rest ih =>
    simp only [assocDelete]
    split
    · exact List.sublist_cons_self e rest
    · exact ih.cons₂ e

theorem assocGet_assocSet_ne {α : Type} (m : List (String × α)) (k k' : String) (v : α)
    (h : k' ≠ k) : assocGet (assocSet m k v) k' = assocGet m k' := by
  have hkk' : k ≠ k' := Ne.symm h
  induction m with
  | nil => simp [assocGet, assocSet, hkk']
  | cons e rest ih =>
    by_cases he : e.1 = k
    · simp [assocGet, assocSet, he, hkk']
    · by_cases he' : e.1 = k'
      · simp [assocGet, assocSet, he, he', h]
      · simp [assocGet, assocSet, he, he', ih]

theorem assocGet_assocDelete_ne {α : Type} (m : List (String × α)) (k k' : String)
    (h : k' ≠ k) : assocGet (assocDelete m k) k' = assocGet m k' := by
  have hks : k ≠ k' := Ne.symm h
  induction m with
  | nil => rfl
  | cons e rest ih =>
    by_cases he : e.1 = k
    · simp [assocDelete, assocGet, he, hks]
    · by_cases he' : e.1 = k'
      · simp [assocDelete, assocGet, he, he', h]
      · simp [assocDelete, assocGet, he, he', ih]

theorem assocGet_mem_keys {α : Type} {m : List (String × α)} {k : String} {v : α}
    (h : assocGet m k = some v) : k ∈ m.map Prod.fst := by
  induction m with
  | nil => simp [assocGet] at h
  | cons e rest ih =>
    by_cases he : e.1 = k
    · simp [he]
    · simp only [assocGet] at h
      rw [if_neg (fun hb => he (beq_iff_eq.mp hb))] at h
      exact List.mem_cons_of_mem _ (ih h)

theorem assocGet_eq_none_iff {α : Type} (m : List (String × α)) (k : String) :
    assocGet m k = none ↔ ∀ e ∈ m, e.1 ≠ k := by
  induction m with
  | nil => simp [assocGet]
  | cons e rest ih =>
    by_cases h : e.1 = k
    · simp [assocGet, h]
    · simp [assocGet, h, ih]

theorem assocGet_eq_none_of_not_mem_keys {α : Type} {m : List (String × α)} {k : String}
    (h : k ∉ m.map Prod.fst) : assocGet m k = none := by
  rw [assocGet_eq_none_iff]
  intro e he hek
  exact h (hek ▸ List.mem_map_of_mem Prod.fst he)

theorem assocGet_assocDelete_self_of_nodup {α : Type} {m : List (String × α)} {k : String}
    (h : (m.map Prod.fst).Nodup) : assocGet (assocDelete m k) k = none := by
  induction m with
  | nil => simp [assocDelete, assocGet]
  | cons e rest ih =>
    simp only [List.map_cons, List.nodup_cons] at h
    by_cases he : e.1 = k
    · have hb : (e.1 == k) = true := beq_iff_eq.mpr he
      simp only [assocDelete, hb, if_true]
      exact assocGet_eq_none_of_not_mem_keys (he ▸ h.1)
    · simp [assocDelete, assocGet, he, ih h.2]

theorem keys_assocSet_subset {α : Type} (m : List (String × α)) (k : String) (v : α) :
    ((assocSet m k v).map Prod.fst) ⊆ k :: m.map Prod.fst := by
  induction m with
  | nil => simp [assocSet]
  | cons e rest ih =>
    by_cases he : e.1 = k
    · have hb : (e.1 == k) = true := beq_iff_eq.mpr he
      simp only [assocSet, hb, if_true, List.map_cons]
      intro x hx
      rcases List.mem_cons.mp hx with hx | hx
      · exact hx ▸ List.mem_cons_self _ _
      · exact List.mem_cons_of_mem _ (List.mem_cons_of_mem _ hx)
    · have hb : (e.1 == k) = false := by simp [he]
      simp only [assocSet, hb, Bool.false_eq_true, if_false, List.map_cons]
      intro x hx
      rcases List.mem_cons.mp hx with hx | hx
      · exact hx ▸ List.mem_cons_of_mem _ (List.mem_cons_self _ _)
      · rcases List.mem_cons.mp (ih hx) with hx' | hx'
        · exact hx' ▸ List.mem_cons_self _ _
        · exact List.mem_cons_of_mem _ (List.mem_cons_of_mem _ hx')

theorem keys_nodup_assocSet {α : Type} {m : List (String × α)} (k : String) (v : α)
    (h : (m.map Prod.fst).Nodup) : ((assocSet m k v).map Prod.fst).Nodup := by
  induction m with
  | nil => simp [assocSet]
  | cons e rest ih =>
    simp only [List.map_cons, List.nodup_cons] at h
    by_cases he : e.1 = k
    · have hb : (e.1 == k) = true := beq_iff_eq.mpr he
      simp only [assocSet, hb, if_true, List.map_cons, List.nodup_cons]
      exact ⟨he ▸ h.1, h.2⟩
    · have hb : (e.1 == k) = false := by simp [he]
      simp only [assocSet, hb, Bool.false_eq_true, if_false, List.map_cons,
        List.nodup_cons]
      refine ⟨fun hmem => ?_, ih h.2⟩
      rcases List.mem_cons.mp (keys_assocSet_subset rest k v hmem) with h' | h'
      · exact he h'
      · exact h.1 h'

theorem length_assocSet_le {α : Type} (m : List (String × α)) (k : String) (v : α) :
    (assocSet m k v).length ≤ m.length + 1 := by
  induction m with
  | nil => simp [assocSet]
  | cons e rest ih =>
    simp only [assocSet]
    split
    · simp
    · simp only [List.length_cons]
      omega

theorem length_assocDelete_of_mem_keys {α : Type} {m : List (String × α)} {k : String}
    (h : k ∈ m.map Prod.fst) : (assocDelete m k).length + 1 = m.length := by
  induction m with
  | nil => simp at h
  | cons e rest ih =>
    by_cases he : e.1 = k
    · simp [assocDelete, he]
    · simp only [List.map_cons, List.mem_cons] at h
      rcases h with h | h
      · exact absurd h.symm he
      · have hb : (e.1 == k) = false := by simp [he]
        simp only [assocDelete, hb, Bool.false_eq_true, if_false, List.length_cons]
        have := ih h
        omega

theorem assocGet_assocSet_self {α : Type} (m : List (String × α)) (k : String) (v : α) :
    assocGet (assocSet m k v) k = some v := by
  induction m with
  | nil => simp [assocGet, assocSet]
  | cons e rest ih =>
    by_cases h : e.1 = k
    · simp [assocGet, assocSet, h]
    · simp [assocGet, assocSet, h, ih]

theorem assocGet_eq_none_of_sublist {α : Type} {m' m : List (String × α)} {k : String}
    (hs : List.Sublist m' m) (h : assocGet m k = none) : assocGet m' k = none := by
  rw [assocGet_eq_none_iff] at h ⊢
  exact fun e he => h e (hs.mem he)

theorem keys_nodup_assocDelete {α : Type} {m : List (String × α)} (k : String)
    (h : (m.map Prod.fst).Nodup) : ((assocDelete m k).map Prod.fst).Nodup :=
  h.sublist ((assocDelete_sublist m k).map Prod.fst)

/-- JS `String.prototype.toLowerCase`, modeled as per-character ASCII
lowering (the catalog contains no non-ASCII uppercase letters).  Defined on
the character list so proofs can evaluate it. -/
def jsToLower (s : String) : String := ⟨s.data.map Char.toLower⟩

/-- JS `String.prototype.trim`: strip leading and trailing whitespace. -/
def jsTrim (s : String) : String :=
  ⟨((s.data.dropWhile Char.isWhitespace).reverse.dropWhile Char.isWhitespace).reverse⟩

/-! # Translation service (src/services/translationService.ts) -/

/-- getCacheKey of translationService.ts: the memo key is the language pair
plus the first 50 characters of the text argument.  (Renamed from
`getCacheKey`: the repository has a second, one-argument `getCacheKey` in the
recipe-cache section, modeled below as `getRecipeCacheKey`.) -/
def getTransCacheKey (text sourceLang targetLang : String) : String :=
  sourceLang ++ "-" ++ targetLang ++ "-" ++ text.take 50

/-- Values stored in the translation memo (`translationCache` holds `any` in
the source: plain strings from translateText / translateSearchQuery, parsed
JSON arrays from translateRecipeContent). -/
inductive TransValue where
  | str : String → TransValue
  | details : List RecipeDetail → TransValue
  | summaries : List RecipeSummary → TransValue
deriving DecidableEq

/-- The external providers, as oracles.  `none` = the call threw, the client
was unavailable, or the response's JSON parse threw; `some v` = the response
parsed to `v`.  Each field corresponds to one provider call site. -/
structure Env where
  transText : String → String → Option String
  transQuery : String → Option String
  transDetails : List RecipeDetail → String → Option (List RecipeDetail)
  transSummaries : List RecipeSummary → String → Option (List RecipeSummary)
  genDetail : String → Option RecipeDetail
  genList : String → Option (List RecipeSummary)

/-- CachedRecipe of the recipe cache: canonical English content, per-language
translations, and the record timestamp. -/
structure CachedRecipe where
  english : RecipeDetail
  translations : List (String × RecipeDetail)
  timestamp : Nat
deriving DecidableEq

/-- The module-level mutable state of translationService.ts plus
provider-call counters (`genCalls` counts generation-provider calls,
`transCalls` translation-provider calls). -/
structure GeminiState where
  recipeCache : List (String × CachedRecipe)
  translationCache : List (String × TransValue)
  genCalls : Nat
  transCalls : Nat
deriving DecidableEq

/-- The state at module load: both caches empty, no provider calls made. -/
def initState : GeminiState := ⟨[], [], 0, 0⟩

/-- JSON string escaping as performed by `JSON.stringify` on the string
values occurring in this code base (quote and backslash; no control
characters appear in the catalog data). -/
def jsonEscape (s : String) : String :=
  ⟨s.data.foldr
    (fun c acc =>
      if c = '"' then '\\' :: '"' :: acc
      else if c = '\\' then '\\' :: '\\' :: acc
      else c :: acc) []⟩

def jsonStr (s : String) : String := "\"" ++ jsonEscape s ++ "\""

def serializeStrList (l : List String) : String :=
  "[" ++ String.intercalate "," (l.map jsonStr) ++ "]"

/-- `JSON.stringify` of one RecipeSummary (fields in declaration order, no
whitespace). -/
def serializeSummary (r : RecipeSummary) : String :=
  "\x7b\"id\":" ++ jsonStr r.id ++ ",\"name\":" ++ jsonStr r.name ++
  ",\"category\":" ++ jsonStr r.category ++
  ",\"shortDescription\":" ++ jsonStr r.shortDescription ++
  ",\"prepTime\":" ++ jsonStr r.prepTime ++
  ",\"calories\":" ++ jsonStr r.calories ++ "\x7d"

/-- `JSON.stringify` of one RecipeDetail. -/
def serializeDetail (r : RecipeDetail) : String :=
  "\x7b\"id\":" ++ jsonStr r.id ++ ",\"name\":" ++ jsonStr r.name ++
  ",\"category\":" ++ jsonStr r.category ++
  ",\"shortDescription\":" ++ jsonStr r.shortDescription ++
  ",\"prepTime\":" ++ jsonStr r.prepTime ++
  ",\"calories\":" ++ jsonStr r.calories ++
  ",\"ingredients\":" ++ serializeStrList r.ingredients ++
  ",\"instructions\":" ++ serializeStrList r.instructions ++
  ",\"tips\":" ++ serializeStrList r.tips ++ "\x7d"

def serializeDetails (l : List RecipeDetail) : String :=
  "[" ++ String.intercalate "," (l.map serializeDetail) ++ "]"

def serializeSummaries (l : List RecipeSummary) : String :=
  "[" ++ String.intercalate "," (l.map serializeSummary) ++ "]"

/-- translateText: return the text unchanged when the target is English or
equals the source; otherwise consult the memo, then the provider.
`result.text?.trim() || text` becomes: a missing/empty response text falls
back to the original.  On a thrown error the original text is returned and
nothing is memoized. -/
def translateText (env : Env) (st : GeminiState)
    (text targetLang sourceLang : String) : String × GeminiState :=
  if targetLang == "en" || targetLang == sourceLang then (text, st)
  else
    let cacheKey := getTransCacheKey text sourceLang targetLang
    match assocGet st.translationCache cacheKey with
    | some (TransValue.str v) => (v, st)
    | some _ =>
      -- In JS the memoized value is returned whatever its shape; a
      -- wrong-shape value can only be hit through a key collision between
      -- distinct call sites, which none of the verified scenarios produce.
      (text, st)
    | none =>
      match env.transText text targetLang with
      | some t =>
        let translated := if jsTrim t == "" then text else jsTrim t
        (translated,
         { st with
             translationCache :=
               assocSet st.translationCache cacheKey (TransValue.str translated),
             transCalls := st.transCalls + 1 })
      | none => (text, { st with transCalls := st.transCalls + 1 })

/-- translateSearchQuery: translate a query to English for matching; memo
key `(query, sourceLang, "en")`; falls back to the original query on
failure. -/
def translateSearchQuery (env : Env) (st : GeminiState)
    (query sourceLang : String) : String × GeminiState :=
  if sourceLang == "en" then (query, st)
  else
    let cacheKey := getTransCacheKey query sourceLang "en"
    match assocGet st.translationCache cacheKey with
    | some (TransValue.str v) => (v, st)
    | some _ => (query, st)
    | none =>
      match env.transQuery query with
      | some t =>
        let translated := if jsTrim t == "" then query else jsTrim t
        (translated,
         { st with
             translationCache :=
               assocSet st.translationCache cacheKey (TransValue.str translated),
             transCalls := st.transCalls + 1 })
      | none => (query, { st with transCalls := st.transCalls + 1 })

/-- translateRecipeContent applied to a list of RecipeDetail (the source
function is untyped and is also applied to summary lists; see
`translateRecipeContentS`).  The memo key is
`getCacheKey(JSON.stringify(content).substring(0, 100), 'en', targetLang)`
— note getCacheKey re-truncates its text argument to 50 characters.  On a
provider error or a JSON parse failure the content is returned unchanged and
nothing is memoized; a successfully parsed response of any shape is memoized
and returned.  (A response parsing to JSON `null` is modeled as a failed
call: in both the caller observes the untranslated content.) -/
def translateRecipeContentD (env : Env) (st : GeminiState)
    (content : List RecipeDetail) (targetLang : String) :
    List RecipeDetail × GeminiState :=
  if targetLang == "en" then (content, st)
  else
    let cacheKey :=
      getTransCacheKey ((serializeDetails content).take 100) "en" targetLang
    match assocGet st.translationCache cacheKey with
    | some (TransValue.details v) => (v, st)
    | some _ => (content, st)
    | none =>
      match env.transDetails content targetLang with
      | some translated =>
        (translated,
         { st with
             translationCache :=
               assocSet st.translationCache cacheKey (TransValue.details translated),
             transCalls := st.transCalls + 1 })
      | none => (content, { st with transCalls := st.transCalls + 1 })

/-- translateRecipeContent applied to a list of RecipeSummary. -/
def translateRecipeContentS (env : Env) (st : GeminiState)
    (content : List RecipeSummary) (targetLang : String) :
    List RecipeSummary × GeminiState :=
  if targetLang == "en" then (content, st)
  else
    let cacheKey :=
      getTransCacheKey ((serializeSummaries content).take 100) "en" targetLang
    match assocGet st.translationCache cacheKey with
    | some (TransValue.summaries v) => (v, st)
    | some _ => (content, st)
    | none =>
      match env.transSummaries content targetLang with
      | some translated =>
        (translated,
         { st with
             translationCache :=
               assocSet st.translationCache cacheKey (TransValue.summaries translated),
             transCalls := st.transCalls + 1 })
      | none => (content, { st with transCalls := st.transCalls + 1 })

/-! # Recipe cache (the RECIPE CACHE SYSTEM section of the gemini service) -/

def CACHE_EXPIRY_MS : Nat := 30 * 60 * 1000

def MAX_CACHE_SIZE : Nat := 100

/-- getCacheKey of the recipe cache: lower-case then trim.  (Renamed; see
`getTransCacheKey`.) -/
def getRecipeCacheKey (recipeName : String) : String :=
  jsTrim (jsToLower recipeName)

/-- isCacheValid: `Date.now() - timestamp < CACHE_EXPIRY_MS`.  Nat
subtraction truncates at zero, matching the JS comparison also when
`timestamp > now` (a negative difference is below the bound). -/
def isCacheValid (now timestamp : Nat) : Bool :=
  decide (now - timestamp < CACHE_EXPIRY_MS)

/-- The `for (const [key, value] of recipeCache.entries())` minimum scan of
evictOldestCache: `oldestTime` starts at `Date.now()` and only entries with
a strictly smaller timestamp replace the running minimum. -/
def findOldestKey (now : Nat) (cache : List (String × CachedRecipe)) :
    Option String × Nat :=
  cache.foldl
    (fun acc e => if e.2.timestamp < acc.2 then (some e.1, e.2.timestamp) else acc)
    (none, now)

/-- evictOldestCache: nothing happens below capacity; otherwise deletes the
key found by the minimum scan, if any. -/
def evictOldestCache (now : Nat) (cache : List (String × CachedRecipe)) :
    List (String × CachedRecipe) :=
  if cache.length < MAX_CACHE_SIZE then cache
  else
    match (findOldestKey now cache).1 with
    | some oldestKey => assocDelete cache oldestKey
    | none => cache

/-- getCachedRecipe: returns the cached detail for the language, purging an
expired record (the possibly-updated cache is returned alongside). -/
def getCachedRecipe (now : Nat) (cache : List (String × CachedRecipe))
    (recipeName language : String) :
    Option RecipeDetail × List (String × CachedRecipe) :=
  let cacheKey := getRecipeCacheKey recipeName
  match assocGet cache cacheKey with
  | none => (none, cache)
  | some cached =>
    if isCacheValid now cached.timestamp then
      if language == "en" then (some cached.english, cache)
      else (assocGet cached.translations language, cache)
    else (none, assocDelete cache cacheKey)

/-- setCachedRecipe: evict first, create the record if missing, attach the
translation when given and not English, refresh the timestamp. -/
def setCachedRecipe (now : Nat) (cache : List (String × CachedRecipe))
    (recipeName : String) (englishRecipe : RecipeDetail) (language : String)
    (translatedRecipe : Option RecipeDetail) :
    List (String × CachedRecipe) :=
  let cache1 := evictOldestCache now cache
  let cacheKey := getRecipeCacheKey recipeName
  let cached :=
    match assocGet cache1 cacheKey with
    | some c => c
    | none => { english := englishRecipe, translations := [], timestamp := now }
  let cached :=
    match translatedRecipe with
    | some t =>
      if language != "en" then
        { cached with translations := assocSet cached.translations language t }
      else cached
    | none => cached
  assocSet cache1 cacheKey { cached with timestamp := now }

/-- The 47 static recipe summaries declared inline in searchRecipes (src/services/translationService.ts, const allRecipes). -/
def allRecipes : List RecipeSummary := [
  ⟨"1", "Spaghetti Carbonara", "Italian", "Creamy pasta with bacon and eggs", "20 min", "450 kcal"⟩,
  ⟨"2", "Margherita Pizza", "Italian", "Classic pizza with tomato, mozzarella, and basil", "30 min", "380 kcal"⟩,
  ⟨"3", "Lasagna Bolognese", "Italian", "Layered pasta with meat sauce and cheese", "60 min", "520 kcal"⟩,
  ⟨"4", "Risotto Milanese", "Italian", "Creamy saffron rice dish", "35 min", "400 kcal"⟩,
  ⟨"5", "Tiramisu", "Italian", "Coffee-flavored Italian dessert", "25 min", "340 kcal"⟩,
  ⟨"6", "Pesto Pasta", "Italian", "Pasta with fresh basil pesto sauce", "15 min", "420 kcal"⟩,
  ⟨"1", "Sushi Rolls", "Japanese", "Fresh fish and rice wrapped in seaweed", "40 min", "320 kcal"⟩,
  ⟨"2", "Ramen Noodles", "Japanese", "Rich broth with noodles and toppings", "45 min", "480 kcal"⟩,
  ⟨"3", "Teriyaki Chicken", "Japanese", "Glazed chicken with sweet soy sauce", "25 min", "380 kcal"⟩,
  ⟨"4", "Tempura", "Japanese", "Lightly battered and fried seafood and vegetables", "30 min", "340 kcal"⟩,
  ⟨"5", "Miso Soup", "Japanese", "Traditional Japanese soup with tofu", "15 min", "120 kcal"⟩,
  ⟨"6", "Yakitori", "Japanese", "Grilled chicken skewers", "20 min", "280 kcal"⟩,
  ⟨"1", "Beef Tacos", "Mexican", "Seasoned beef in soft or crispy shells", "25 min", "380 kcal"⟩,
  ⟨"2", "Chicken Quesadilla", "Mexican", "Grilled tortilla with cheese and chicken", "20 min", "420 kcal"⟩,
  ⟨"3", "Guacamole", "Mexican", "Fresh avocado dip with lime and cilantro", "10 min", "180 kcal"⟩,
  ⟨"4", "Enchiladas", "Mexican", "Rolled tortillas with sauce and filling", "45 min", "480 kcal"⟩,
  ⟨"5", "Churros", "Mexican", "Fried dough with cinnamon sugar", "30 min", "340 kcal"⟩,
  ⟨"6", "Nachos", "Mexican", "Crispy tortilla chips with toppings", "15 min", "520 kcal"⟩,
  ⟨"1", "Butter Chicken", "Indian", "Creamy tomato-based chicken curry", "45 min", "480 kcal"⟩,
  ⟨"2", "Chicken Tikka Masala", "Indian", "Spiced chicken in tomato cream sauce", "40 min", "450 kcal"⟩,
  ⟨"3", "Palak Paneer", "Indian", "Spinach curry with cottage cheese", "30 min", "320 kcal"⟩,
  ⟨"4", "Biryani", "Indian", "Fragrant rice with meat or vegetables", "60 min", "550 kcal"⟩,
  ⟨"5", "Dal Makhani", "Indian", "Creamy black lentil curry", "50 min", "380 kcal"⟩,
  ⟨"6", "Samosas", "Indian", "Crispy fried pastries with spiced filling", "40 min", "280 kcal"⟩,
  ⟨"1", "Pad Thai", "Thai", "Stir-fried rice noodles with tamarind sauce", "25 min", "420 kcal"⟩,
  ⟨"2", "Green Curry", "Thai", "Spicy coconut curry with vegetables", "35 min", "380 kcal"⟩,
  ⟨"3", "Tom Yum Soup", "Thai", "Hot and sour Thai soup", "20 min", "180 kcal"⟩,
  ⟨"4", "Massaman Curry", "Thai", "Rich peanut-based curry", "45 min", "480 kcal"⟩,
  ⟨"5", "Som Tam", "Thai", "Spicy green papaya salad", "15 min", "150 kcal"⟩,
  ⟨"6", "Mango Sticky Rice", "Thai", "Sweet coconut rice with fresh mango", "30 min", "320 kcal"⟩,
  ⟨"1", "Quinoa Buddha Bowl", "Vegan", "Healthy bowl with quinoa and vegetables", "25 min", "380 kcal"⟩,
  ⟨"2", "Lentil Soup", "Vegan", "Hearty and nutritious lentil soup", "40 min", "280 kcal"⟩,
  ⟨"3", "Vegan Tacos", "Vegan", "Plant-based tacos with beans and veggies", "20 min", "320 kcal"⟩,
  ⟨"4", "Chickpea Curry", "Vegan", "Spiced chickpeas in tomato sauce", "35 min", "360 kcal"⟩,
  ⟨"5", "Avocado Toast", "Vegan", "Crusty bread with mashed avocado", "10 min", "240 kcal"⟩,
  ⟨"6", "Veggie Stir Fry", "Vegan", "Colorful vegetables in savory sauce", "20 min", "260 kcal"⟩,
  ⟨"1", "Chocolate Cake", "Dessert", "Rich and moist chocolate layer cake", "60 min", "520 kcal"⟩,
  ⟨"2", "Cheesecake", "Dessert", "Creamy New York style cheesecake", "90 min", "480 kcal"⟩,
  ⟨"3", "Apple Pie", "Dessert", "Classic American apple pie", "75 min", "420 kcal"⟩,
  ⟨"5", "Chocolate Brownies", "Dessert", "Fudgy chocolate brownies", "35 min", "340 kcal"⟩,
  ⟨"6", "Crème Brûlée", "Dessert", "French custard with caramelized sugar", "50 min", "360 kcal"⟩,
  ⟨"1", "Greek Salad", "Mediterranean", "Fresh vegetables with feta and olives", "15 min", "220 kcal"⟩,
  ⟨"2", "Hummus", "Mediterranean", "Chickpea dip with tahini and lemon", "10 min", "180 kcal"⟩,
  ⟨"3", "Falafel", "Mediterranean", "Crispy fried chickpea balls", "30 min", "320 kcal"⟩,
  ⟨"4", "Grilled Fish", "Mediterranean", "Fresh fish with lemon and herbs", "25 min", "280 kcal"⟩,
  ⟨"5", "Moussaka", "Mediterranean", "Layered eggplant casserole", "90 min", "480 kcal"⟩,
  ⟨"6", "Baklava", "Mediterranean", "Sweet pastry with nuts and honey", "60 min", "420 kcal"⟩
]

/-- The fixed editorial fallback list declared inline in searchRecipes (const fallbackRecipes). -/
def fallbackRecipes : List RecipeSummary := [
  ⟨"1", "Classic Caesar Salad", "General", "Fresh romaine with parmesan and croutons", "15 min", "280 kcal"⟩,
  ⟨"2", "Grilled Chicken Breast", "General", "Juicy herb-seasoned chicken", "25 min", "320 kcal"⟩,
  ⟨"3", "Vegetable Stir Fry", "General", "Colorful mixed vegetables in savory sauce", "20 min", "240 kcal"⟩,
  ⟨"4", "Beef Burger", "General", "Juicy beef patty with toppings", "30 min", "520 kcal"⟩,
  ⟨"5", "Pasta Primavera", "General", "Pasta with fresh seasonal vegetables", "25 min", "380 kcal"⟩,
  ⟨"6", "Fruit Salad", "General", "Fresh mixed fruits with honey", "10 min", "150 kcal"⟩
]

/-- The static "Spaghetti Carbonara" entry of the detail catalog, named separately for use in concrete witnesses. -/
def spaghettiCarbonara : RecipeDetail :=
  ⟨"1", "Spaghetti Carbonara", "Italian", "Creamy pasta with bacon and eggs", "20 min", "450 kcal",
  [
    "400g spaghetti",
    "200g pancetta or bacon",
    "4 large eggs",
    "100g Parmesan cheese, grated",
    "2 cloves garlic",
    "Salt and black pepper",
    "Fresh parsley"],
  [
    "Cook spaghetti in salted boiling water until al dente",
    "Fry pancetta until crispy, add minced garlic",
    "Beat eggs with grated Parmesan in a bowl",
    "Drain pasta, reserving 1 cup pasta water",
    "Mix hot pasta with pancetta off heat",
    "Add egg mixture, tossing quickly (eggs should not scramble)",
    "Add pasta water to reach creamy consistency",
    "Season with pepper and garnish with parsley"],
  [
    "Use room temperature eggs to prevent scrambling",
    "The heat from the pasta cooks the eggs",
    "Reserve pasta water - the starch helps create a silky sauce"]⟩

/-- The static recipe-detail catalog declared inline in fetchRecipeDetails (const recipes), as an association list keyed by the exact English name. -/
def staticRecipes : List (String × RecipeDetail) := [
  ("Spaghetti Carbonara", spaghettiCarbonara),
  ("Margherita Pizza",
    ⟨"2", "Margherita Pizza", "Italian", "Classic pizza with tomato, mozzarella, and basil", "30 min", "380 kcal",
    [
      "Pizza dough (store-bought or homemade)",
      "200g crushed tomatoes",
      "200g fresh mozzarella",
      "Fresh basil leaves",
      "2 tbsp olive oil",
      "2 cloves garlic",
      "Salt",
      "Oregano"],
    [
      "Preheat oven to 475°F (245°C)",
      "Roll out pizza dough on floured surface",
      "Mix tomatoes with minced garlic, salt, and oregano",
      "Spread tomato sauce on dough, leaving 1-inch border",
      "Tear mozzarella and distribute evenly",
      "Drizzle with olive oil",
      "Bake for 12-15 minutes until crust is golden",
      "Top with fresh basil leaves before serving"],
    [
      "Use a pizza stone for crispier crust",
      "Don't overload with toppings",
      "Fresh mozzarella makes all the difference"]⟩),
  ("Lasagna Bolognese",
    ⟨"3", "Lasagna Bolognese", "Italian", "Layered pasta with meat sauce and cheese", "60 min", "520 kcal",
    [
      "12 lasagna sheets",
      "500g ground beef",
      "400g crushed tomatoes",
      "1 onion, diced",
      "2 carrots, diced",
      "2 celery stalks, diced",
      "500ml béchamel sauce",
      "200g Parmesan cheese",
      "2 tbsp tomato paste",
      "Red wine",
      "Olive oil"],
    [
      "Brown ground beef in olive oil, set aside",
      "Sauté onion, carrots, and celery until soft",
      "Add beef back, stir in tomato paste",
      "Add crushed tomatoes and wine, simmer 30 minutes",
      "Cook lasagna sheets according to package",
      "Layer: sauce, pasta, béchamel, Parmesan - repeat",
      "Top layer should be béchamel and Parmesan",
      "Bake at 375°F (190°C) for 30-35 minutes until golden"],
    [
      "Let it rest 10 minutes before cutting",
      "Make the bolognese sauce ahead for better flavor",
      "Cover with foil if top browns too quickly"]⟩),
  ("Sushi Rolls",
    ⟨"1", "Sushi Rolls", "Japanese", "Fresh fish and rice wrapped in seaweed", "40 min", "320 kcal",
    [
      "2 cups sushi rice",
      "3 tbsp rice vinegar",
      "4 nori sheets",
      "200g fresh salmon or tuna",
      "1 cucumber, julienned",
      "1 avocado, sliced",
      "Soy sauce",
      "Wasabi",
      "Pickled ginger",
      "Sesame seeds"],
    [
      "Cook sushi rice and mix with rice vinegar while warm",
      "Place nori sheet on bamboo mat, shiny side down",
      "Spread rice evenly, leaving 1-inch at top",
      "Arrange fish, cucumber, and avocado in a line",
      "Roll tightly using the bamboo mat",
      "Seal edge with a little water",
      "Cut into 6-8 pieces with sharp wet knife",
      "Serve with soy sauce, wasabi, and ginger"],
    [
      "Use very fresh, sushi-grade fish only",
      "Keep hands slightly wet to prevent sticking",
      "A sharp knife is essential for clean cuts"]⟩),
  ("Ramen Noodles",
    ⟨"2", "Ramen Noodles", "Japanese", "Rich broth with noodles and toppings", "45 min", "480 kcal",
    [
      "400g fresh ramen noodles",
      "1.5L chicken or pork broth",
      "2 tbsp miso paste",
      "2 tbsp soy sauce",
      "2 eggs",
      "200g pork belly, sliced",
      "Green onions",
      "Nori seaweed",
      "Bamboo shoots",
      "Sesame oil"],
    [
      "Simmer broth with miso paste and soy sauce",
      "Soft boil eggs for 6-7 minutes, then ice bath",
      "Sear pork belly slices until crispy",
      "Cook ramen noodles according to package",
      "Divide noodles into bowls",
      "Ladle hot broth over noodles",
      "Top with pork, halved egg, green onions, and nori",
      "Drizzle with sesame oil"],
    [
      "Marinate eggs in soy sauce overnight for extra flavor",
      "Don't overcook the noodles",
      "Make broth in advance - flavor improves overnight"]⟩),
  ("Teriyaki Chicken",
    ⟨"3", "Teriyaki Chicken", "Japanese", "Glazed chicken with sweet soy sauce", "25 min", "380 kcal",
    [
      "4 chicken thighs",
      "1/4 cup soy sauce",
      "3 tbsp mirin",
      "2 tbsp sake or white wine",
      "2 tbsp brown sugar",
      "1 tbsp honey",
      "2 cloves garlic, minced",
      "1 tsp ginger, grated",
      "Sesame seeds",
      "Green onions"],
    [
      "Mix soy sauce, mirin, sake, sugar, honey, garlic, and ginger",
      "Marinate chicken for 15 minutes",
      "Heat pan over medium-high heat",
      "Cook chicken skin-side down for 5-6 minutes",
      "Flip and cook another 5 minutes",
      "Pour sauce into pan",
      "Simmer, basting chicken until sauce thickens",
      "Garnish with sesame seeds and green onions"],
    [
      "Don't move chicken too much - let it develop a crust",
      "The sauce will thicken as it reduces",
      "Serve over rice to soak up extra sauce"]⟩),
  ("Beef Tacos",
    ⟨"1", "Beef Tacos", "Mexican", "Seasoned beef in soft or crispy shells", "25 min", "380 kcal",
    [
      "500g ground beef",
      "8 taco shells",
      "1 onion, diced",
      "2 cloves garlic",
      "2 tsp chili powder",
      "1 tsp cumin",
      "1 tsp paprika",
      "Lettuce, shredded",
      "Tomatoes, diced",
      "Cheddar cheese",
      "Sour cream",
      "Salsa"],
    [
      "Brown ground beef over medium-high heat",
      "Add onion and garlic, cook until soft",
      "Stir in chili powder, cumin, paprika, salt",
      "Add 1/4 cup water, simmer 5 minutes",
      "Warm taco shells in oven",
      "Fill shells with seasoned beef",
      "Top with lettuce, tomatoes, cheese",
      "Serve with sour cream and salsa"],
    [
      "Drain excess fat from beef for healthier tacos",
      "Warm shells make them easier to fold",
      "Set up a taco bar for easy customization"]⟩),
  ("Chicken Quesadilla",
    ⟨"2", "Chicken Quesadilla", "Mexican", "Grilled tortilla with cheese and chicken", "20 min", "420 kcal",
    [
      "4 flour tortillas",
      "300g cooked chicken, shredded",
      "200g cheddar or Mexican cheese",
      "1 bell pepper, diced",
      "1 onion, diced",
      "2 tbsp olive oil",
      "1 tsp cumin",
      "Sour cream",
      "Guacamole",
      "Salsa"],
    [
      "Sauté peppers and onions until soft",
      "Mix with chicken and cumin",
      "Heat tortilla in a pan",
      "Sprinkle cheese on half the tortilla",
      "Add chicken mixture",
      "Fold tortilla in half",
      "Cook 2-3 minutes per side until golden and cheese melts",
      "Cut into wedges and serve with toppings"],
    [
      "Press down with spatula for even browning",
      "Don't overfill or it will be hard to flip",
      "Use a mix of cheeses for better flavor"]⟩),
  ("Guacamole",
    ⟨"3", "Guacamole", "Mexican", "Fresh avocado dip with lime and cilantro", "10 min", "180 kcal",
    [
      "3 ripe avocados",
      "1 lime, juiced",
      "1/2 onion, finely diced",
      "1 tomato, diced",
      "2 tbsp fresh cilantro, chopped",
      "1 jalapeño, minced",
      "Salt",
      "Cumin (optional)"],
    [
      "Cut avocados in half, remove pit",
      "Scoop flesh into bowl",
      "Mash with fork to desired consistency",
      "Add lime juice immediately",
      "Stir in onion, tomato, cilantro, jalapeño",
      "Season with salt and cumin",
      "Mix gently",
      "Serve immediately with tortilla chips"],
    [
      "Choose ripe but not mushy avocados",
      "Lime juice prevents browning",
      "Leave one avocado pit in the guacamole to keep it green"]⟩),
  ("Churros",
    ⟨"5", "Churros", "Mexican", "Fried dough with cinnamon sugar", "30 min", "340 kcal",
    [
      "1 cup water",
      "2 tbsp sugar",
      "1/2 tsp salt",
      "2 tbsp vegetable oil",
      "1 cup flour",
      "Oil for frying",
      "1/2 cup sugar for coating",
      "1 tbsp cinnamon"],
    [
      "Bring water, 2 tbsp sugar, salt, and oil to a boil",
      "Remove from heat, stir in flour until dough forms",
      "Let cool 5 minutes",
      "Transfer to piping bag with star tip",
      "Heat 2 inches of oil to 375°F (190°C)",
      "Pipe 4-inch strips directly into oil",
      "Fry until golden, about 2 minutes per side",
      "Mix cinnamon and sugar, coat hot churros"],
    [
      "Don't let the dough cool completely before piping",
      "Maintain oil temperature for crispy churros",
      "Serve with chocolate sauce for dipping"]⟩),
  ("Butter Chicken",
    ⟨"1", "Butter Chicken", "Indian", "Creamy tomato-based chicken curry", "45 min", "480 kcal",
    [
      "600g chicken breast, cubed",
      "200ml heavy cream",
      "400g crushed tomatoes",
      "3 tbsp butter",
      "1 onion, diced",
      "4 cloves garlic",
      "1 tbsp ginger",
      "2 tsp garam masala",
      "1 tsp turmeric",
      "1 tsp chili powder",
      "Fresh cilantro"],
    [
      "Marinate chicken in yogurt and spices for 30 minutes",
      "Melt butter, sauté onion until golden",
      "Add garlic and ginger, cook 1 minute",
      "Add tomatoes and spices, simmer 10 minutes",
      "Add marinated chicken, cook until done",
      "Stir in cream",
      "Simmer 5 minutes until sauce thickens",
      "Garnish with cilantro, serve with naan"],
    [
      "Marinating longer makes chicken more tender",
      "Add kasuri methi (dried fenugreek) for authentic flavor",
      "Adjust spice level to your preference"]⟩),
  ("Pad Thai",
    ⟨"1", "Pad Thai", "Thai", "Stir-fried rice noodles with tamarind sauce", "25 min", "420 kcal",
    [
      "200g rice noodles",
      "200g shrimp or chicken",
      "2 eggs",
      "3 tbsp tamarind paste",
      "2 tbsp fish sauce",
      "2 tbsp sugar",
      "2 cloves garlic",
      "Bean sprouts",
      "Peanuts, crushed",
      "Green onions",
      "Lime wedges"],
    [
      "Soak rice noodles in warm water for 20 minutes",
      "Mix tamarind paste, fish sauce, and sugar for sauce",
      "Heat wok, scramble eggs, set aside",
      "Stir-fry garlic and shrimp until cooked",
      "Add drained noodles and sauce",
      "Toss everything together",
      "Add bean sprouts and eggs",
      "Serve topped with peanuts, green onions, and lime"],
    [
      "Don't over-soak the noodles",
      "High heat is key for authentic flavor",
      "Adjust sweet-sour-salty balance to taste"]⟩),
  ("Quinoa Buddha Bowl",
    ⟨"1", "Quinoa Buddha Bowl", "Vegan", "Healthy bowl with quinoa and vegetables", "25 min", "380 kcal",
    [
      "1 cup quinoa",
      "1 sweet potato, cubed",
      "1 cup chickpeas",
      "2 cups kale",
      "1 avocado",
      "2 tbsp tahini",
      "1 lemon, juiced",
      "2 tbsp olive oil",
      "Garlic powder",
      "Cumin",
      "Salt"],
    [
      "Cook quinoa according to package instructions",
      "Roast sweet potato cubes at 400°F for 20 minutes",
      "Roast chickpeas with cumin until crispy",
      "Massage kale with olive oil and lemon",
      "Make dressing: mix tahini, lemon juice, water",
      "Arrange quinoa, sweet potato, chickpeas, kale in bowl",
      "Top with sliced avocado",
      "Drizzle with tahini dressing"],
    [
      "Meal prep these bowls for the week",
      "Customize with your favorite vegetables",
      "Tahini dressing keeps well in the fridge"]⟩),
  ("Chocolate Cake",
    ⟨"1", "Chocolate Cake", "Dessert", "Rich and moist chocolate layer cake", "60 min", "520 kcal",
    [
      "2 cups flour",
      "2 cups sugar",
      "3/4 cup cocoa powder",
      "2 tsp baking soda",
      "1 tsp salt",
      "2 eggs",
      "1 cup buttermilk",
      "1 cup coffee, strong",
      "1/2 cup vegetable oil",
      "2 tsp vanilla",
      "Chocolate frosting"],
    [
      "Preheat oven to 350°F (175°C)",
      "Grease two 9-inch round pans",
      "Mix dry ingredients in large bowl",
      "Beat eggs, buttermilk, coffee, oil, vanilla",
      "Add wet ingredients to dry, mix until smooth",
      "Divide batter between pans",
      "Bake 30-35 minutes until toothpick comes out clean",
      "Cool completely, then frost"],
    [
      "Coffee enhances chocolate flavor without tasting like coffee",
      "Don't overmix the batter",
      "Level cake layers for professional look"]⟩),
  ("Greek Salad",
    ⟨"1", "Greek Salad", "Mediterranean", "Fresh vegetables with feta and olives", "15 min", "220 kcal",
    [
      "4 tomatoes, cut into wedges",
      "1 cucumber, sliced",
      "1 red onion, sliced",
      "1 green pepper, sliced",
      "200g feta cheese",
      "1 cup Kalamata olives",
      "3 tbsp olive oil",
      "1 tbsp red wine vinegar",
      "Oregano",
      "Salt and pepper"],
    [
      "Cut tomatoes, cucumber, onion, and pepper",
      "Arrange vegetables in a large bowl",
      "Top with crumbled feta and olives",
      "Whisk olive oil, vinegar, oregano, salt, pepper",
      "Drizzle dressing over salad",
      "Toss gently",
      "Let sit 5 minutes for flavors to meld",
      "Serve immediately"],
    [
      "Use ripe, flavorful tomatoes for best results",
      "Don't refrigerate - serve at room temperature",
      "Traditional Greek salad has no lettuce"]⟩),
  ("Risotto Milanese",
    ⟨"4", "Risotto Milanese", "Italian", "Creamy saffron rice dish", "35 min", "400 kcal",
    [
      "400g Arborio rice",
      "1L chicken stock",
      "1/4 tsp saffron threads",
      "1 onion, finely diced",
      "100ml white wine",
      "50g butter",
      "100g Parmesan, grated",
      "2 tbsp olive oil",
      "Salt and pepper"],
    [
      "Warm stock and steep saffron in it",
      "Heat olive oil and half the butter",
      "Sauté onion until translucent",
      "Add rice, toast for 2 minutes",
      "Add wine, stir until absorbed",
      "Add stock one ladle at a time, stirring constantly",
      "Continue until rice is creamy and al dente (20 min)",
      "Stir in remaining butter and Parmesan",
      "Season and serve immediately"],
    [
      "Stir constantly for creamiest texture",
      "Rice should be al dente, not mushy",
      "Add warm stock gradually - never cold"]⟩),
  ("Tiramisu",
    ⟨"5", "Tiramisu", "Italian", "Coffee-flavored Italian dessert", "25 min", "340 kcal",
    [
      "6 egg yolks",
      "3/4 cup sugar",
      "500g mascarpone cheese",
      "1 1/2 cups strong espresso, cooled",
      "3 tbsp coffee liqueur",
      "24 ladyfinger biscuits",
      "Cocoa powder for dusting",
      "Dark chocolate shavings"],
    [
      "Beat egg yolks and sugar until thick and pale",
      "Add mascarpone, beat until smooth",
      "Mix espresso with coffee liqueur in shallow dish",
      "Quickly dip ladyfingers in coffee mixture",
      "Layer dipped ladyfingers in dish",
      "Spread half the mascarpone mixture over ladyfingers",
      "Repeat with another layer",
      "Dust generously with cocoa powder",
      "Refrigerate 4 hours or overnight"],
    [
      "Use high-quality mascarpone for best flavor",
      "Don't oversoak ladyfingers - just a quick dip",
      "Tastes even better the next day"]⟩),
  ("Pesto Pasta",
    ⟨"6", "Pesto Pasta", "Italian", "Pasta with fresh basil pesto sauce", "15 min", "420 kcal",
    [
      "400g pasta (linguine or spaghetti)",
      "2 cups fresh basil leaves",
      "1/2 cup pine nuts",
      "3 cloves garlic",
      "1/2 cup Parmesan cheese",
      "1/2 cup olive oil",
      "Salt and pepper",
      "Cherry tomatoes (optional)"],
    [
      "Toast pine nuts in dry pan until golden",
      "Blend basil, pine nuts, garlic, Parmesan in food processor",
      "Slowly add olive oil while blending",
      "Season with salt and pepper",
      "Cook pasta in salted water until al dente",
      "Reserve 1/2 cup pasta water",
      "Drain pasta, return to pot",
      "Toss with pesto, adding pasta water to thin",
      "Garnish with extra Parmesan and pine nuts"],
    [
      "Use fresh basil for best flavor",
      "Add pasta water gradually for perfect consistency",
      "Pesto freezes well in ice cube trays"]⟩),
  ("Tempura",
    ⟨"4", "Tempura", "Japanese", "Lightly battered and fried seafood and vegetables", "30 min", "340 kcal",
    [
      "200g shrimp, peeled",
      "Assorted vegetables (sweet potato, zucchini, bell pepper)",
      "1 cup flour",
      "1 egg yolk",
      "1 cup ice cold water",
      "Oil for deep frying",
      "Tempura dipping sauce",
      "Grated daikon radish"],
    [
      "Heat oil to 350°F (175°C)",
      "Mix egg yolk with ice water",
      "Add flour, stir gently (lumps are okay)",
      "Pat shrimp and vegetables dry",
      "Dip in batter, let excess drip off",
      "Fry in batches until light golden (2-3 min)",
      "Drain on paper towels",
      "Serve immediately with dipping sauce and daikon"],
    [
      "Keep batter ice cold for crispy tempura",
      "Don't overmix - lumps are fine",
      "Fry in small batches to maintain oil temperature"]⟩),
  ("Miso Soup",
    ⟨"5", "Miso Soup", "Japanese", "Traditional Japanese soup with tofu", "15 min", "120 kcal",
    [
      "4 cups dashi stock",
      "3 tbsp miso paste",
      "200g silken tofu, cubed",
      "2 green onions, sliced",
      "1 sheet nori, cut into strips",
      "Wakame seaweed (dried)"],
    [
      "Bring dashi stock to gentle simmer",
      "Add wakame, let rehydrate for 2 minutes",
      "Add tofu cubes, heat through",
      "Remove from heat",
      "Dissolve miso paste in small amount of hot broth",
      "Stir miso mixture into soup",
      "Add green onions and nori",
      "Serve immediately (don't boil after adding miso)"],
    [
      "Never boil miso soup after adding miso paste",
      "Use good quality miso for best flavor",
      "Great as a light breakfast or starter"]⟩),
  ("Yakitori",
    ⟨"6", "Yakitori", "Japanese", "Grilled chicken skewers", "20 min", "280 kcal",
    [
      "500g chicken thighs, cut into chunks",
      "4 green onions, cut into pieces",
      "1/2 cup soy sauce",
      "1/4 cup mirin",
      "2 tbsp sake",
      "2 tbsp sugar",
      "Bamboo skewers, soaked",
      "Sesame seeds"],
    [
      "Make sauce: simmer soy sauce, mirin, sake, sugar until thickened",
      "Thread chicken and green onions onto skewers",
      "Preheat grill or broiler to high",
      "Grill skewers 3-4 minutes per side",
      "Brush with sauce while grilling",
      "Continue grilling and basting until cooked through",
      "Sprinkle with sesame seeds",
      "Serve hot with extra sauce"],
    [
      "Soak bamboo skewers to prevent burning",
      "Dark meat stays juicier than breast",
      "Great for outdoor grilling"]⟩),
  ("Enchiladas",
    ⟨"4", "Enchiladas", "Mexican", "Rolled tortillas with sauce and filling", "45 min", "480 kcal",
    [
      "8 corn tortillas",
      "400g cooked chicken, shredded",
      "2 cups enchilada sauce",
      "200g cheddar cheese",
      "1 onion, diced",
      "1 bell pepper, diced",
      "Sour cream",
      "Fresh cilantro",
      "Lime wedges"],
    [
      "Preheat oven to 375°F (190°C)",
      "Mix chicken with half the cheese, onion, pepper",
      "Warm tortillas to make them pliable",
      "Spread 1/2 cup sauce in baking dish",
      "Fill each tortilla with chicken mixture",
      "Roll and place seam-side down in dish",
      "Pour remaining sauce over enchiladas",
      "Top with remaining cheese",
      "Bake 25-30 minutes until bubbly",
      "Garnish with cilantro, serve with sour cream"],
    [
      "Warm tortillas prevent cracking",
      "Use homemade enchilada sauce for best flavor",
      "Cover with foil if cheese browns too quickly"]⟩),
  ("Nachos",
    ⟨"6", "Nachos", "Mexican", "Crispy tortilla chips with toppings", "15 min", "520 kcal",
    [
      "Tortilla chips",
      "300g ground beef or chicken",
      "200g cheddar cheese, shredded",
      "1 cup refried beans",
      "Jalapeños, sliced",
      "Tomatoes, diced",
      "Sour cream",
      "Guacamole",
      "Salsa",
      "Black olives",
      "Green onions"],
    [
      "Preheat oven to 400°F (200°C)",
      "Brown meat with taco seasoning",
      "Spread chips on large baking sheet",
      "Sprinkle half the cheese over chips",
      "Add dollops of beans and cooked meat",
      "Top with remaining cheese",
      "Bake 5-7 minutes until cheese melts",
      "Top with jalapeños, tomatoes, olives",
      "Serve with sour cream, guacamole, salsa"],
    [
      "Layer ingredients for even coverage",
      "Don't overload or chips will get soggy",
      "Serve immediately while hot and crispy"]⟩),
  ("Chicken Tikka Masala",
    ⟨"2", "Chicken Tikka Masala", "Indian", "Spiced chicken in tomato cream sauce", "40 min", "450 kcal",
    [
      "600g chicken breast, cubed",
      "1 cup yogurt",
      "2 tbsp tikka masala spice",
      "400g crushed tomatoes",
      "200ml heavy cream",
      "1 onion, diced",
      "4 cloves garlic",
      "2 tbsp ginger",
      "3 tbsp butter",
      "Fresh cilantro",
      "Garam masala"],
    [
      "Marinate chicken in yogurt and half the tikka spices for 2 hours",
      "Grill or bake marinated chicken until charred",
      "Melt butter, sauté onion until golden",
      "Add garlic, ginger, remaining tikka spice",
      "Add tomatoes, simmer 15 minutes",
      "Blend sauce until smooth",
      "Add chicken pieces",
      "Stir in cream and garam masala",
      "Simmer 10 minutes",
      "Garnish with cilantro"],
    [
      "Marinate overnight for deeper flavor",
      "Char the chicken for authentic taste",
      "Adjust cream for desired richness"]⟩),
  ("Palak Paneer",
    ⟨"3", "Palak Paneer", "Indian", "Spinach curry with cottage cheese", "30 min", "320 kcal",
    [
      "500g fresh spinach",
      "250g paneer, cubed",
      "1 onion, diced",
      "2 tomatoes, chopped",
      "4 cloves garlic",
      "1 tbsp ginger",
      "2 green chilies",
      "1 tsp cumin seeds",
      "1 tsp garam masala",
      "100ml cream",
      "Ghee or oil"],
    [
      "Blanch spinach in boiling water, then ice bath",
      "Blend spinach with green chilies to smooth paste",
      "Heat ghee, fry paneer cubes until golden, set aside",
      "Add cumin seeds, let splutter",
      "Sauté onion, garlic, ginger until soft",
      "Add tomatoes, cook until soft",
      "Add spinach puree and spices",
      "Simmer 10 minutes",
      "Add paneer and cream",
      "Cook 5 more minutes"],
    [
      "Don't overcook spinach to keep bright green color",
      "Fry paneer for better texture",
      "Serve with naan or rice"]⟩),
  ("Biryani",
    ⟨"4", "Biryani", "Indian", "Fragrant rice with meat or vegetables", "60 min", "550 kcal",
    [
      "2 cups basmati rice",
      "500g chicken or lamb",
      "1 cup yogurt",
      "2 onions, sliced",
      "4 cloves garlic",
      "2 tbsp ginger",
      "Whole spices (bay, cinnamon, cardamom)",
      "Saffron in warm milk",
      "Fresh mint and cilantro",
      "Ghee",
      "Biryani masala"],
    [
      "Marinate meat in yogurt and spices for 2 hours",
      "Parboil rice with whole spices until 70% cooked",
      "Deep fry onions until golden and crispy",
      "Cook marinated meat until tender",
      "Layer rice and meat in heavy pot",
      "Top with fried onions, saffron milk, mint",
      "Cover tightly, cook on low heat 20 minutes",
      "Let rest 5 minutes before opening",
      "Mix gently and serve"],
    [
      "Use aged basmati for best results",
      "The layering is key to authentic biryani",
      "Tight seal keeps steam and flavor in"]⟩),
  ("Dal Makhani",
    ⟨"5", "Dal Makhani", "Indian", "Creamy black lentil curry", "50 min", "380 kcal",
    [
      "1 cup whole black lentils (urad dal)",
      "1/4 cup kidney beans",
      "3 tomatoes, pureed",
      "1 onion, diced",
      "4 cloves garlic",
      "1 tbsp ginger",
      "100ml cream",
      "3 tbsp butter",
      "1 tsp cumin",
      "1 tsp garam masala",
      "Kasuri methi (dried fenugreek)"],
    [
      "Soak lentils and beans overnight",
      "Pressure cook with water until very soft",
      "Heat butter, sauté onion until golden",
      "Add garlic, ginger, cook 1 minute",
      "Add tomato puree and spices",
      "Cook until oil separates",
      "Add cooked lentils with liquid",
      "Simmer on low heat for 30 minutes, stirring often",
      "Add cream and kasuri methi",
      "Cook 5 more minutes"],
    [
      "Slow cooking makes it creamier",
      "Traditionally cooked overnight",
      "Tastes better the next day"]⟩),
  ("Samosas",
    ⟨"6", "Samosas", "Indian", "Crispy fried pastries with spiced filling", "40 min", "280 kcal",
    [
      "2 cups flour",
      "4 tbsp oil",
      "3 potatoes, boiled and mashed",
      "1 cup peas",
      "1 onion, finely diced",
      "2 tsp cumin seeds",
      "1 tsp coriander powder",
      "1 tsp garam masala",
      "Green chilies",
      "Fresh cilantro",
      "Oil for frying"],
    [
      "Make dough: mix flour, 4 tbsp oil, water, knead until smooth",
      "Heat oil, add cumin seeds",
      "Sauté onion until soft",
      "Add peas, potatoes, spices, cook 5 minutes",
      "Roll dough into circles, cut in half",
      "Form cone shape, fill with potato mixture",
      "Seal edges with water",
      "Deep fry until golden brown",
      "Serve hot with chutney"],
    [
      "Dough should be firm, not soft",
      "Seal edges well to prevent opening",
      "Fry on medium heat for even cooking"]⟩),
  ("Green Curry",
    ⟨"2", "Green Curry", "Thai", "Spicy coconut curry with vegetables", "35 min", "380 kcal",
    [
      "400ml coconut milk",
      "3 tbsp green curry paste",
      "300g chicken, sliced",
      "1 eggplant, cubed",
      "1 bell pepper, sliced",
      "Bamboo shoots",
      "Thai basil leaves",
      "2 tbsp fish sauce",
      "1 tbsp palm sugar",
      "Kaffir lime leaves"],
    [
      "Heat thick part of coconut milk until oil separates",
      "Add green curry paste, fry until fragrant",
      "Add chicken, cook until no longer pink",
      "Add remaining coconut milk and vegetables",
      "Add fish sauce, sugar, lime leaves",
      "Simmer until vegetables are tender",
      "Stir in Thai basil",
      "Serve over jasmine rice"],
    [
      "Adjust spice level with curry paste amount",
      "Don't overcook vegetables",
      "Fresh curry paste makes a huge difference"]⟩),
  ("Tom Yum Soup",
    ⟨"3", "Tom Yum Soup", "Thai", "Hot and sour Thai soup", "20 min", "180 kcal",
    [
      "4 cups chicken stock",
      "200g shrimp, peeled",
      "3 stalks lemongrass, bruised",
      "4 kaffir lime leaves",
      "3 Thai chilies",
      "200g mushrooms",
      "2 tomatoes, quartered",
      "3 tbsp lime juice",
      "2 tbsp fish sauce",
      "Fresh cilantro"],
    [
      "Bring stock to boil with lemongrass and lime leaves",
      "Add mushrooms and tomatoes",
      "Simmer 5 minutes",
      "Add shrimp, cook until pink",
      "Add fish sauce and chilies",
      "Remove from heat",
      "Add lime juice",
      "Garnish with cilantro",
      "Serve hot"],
    [
      "Don't eat the lemongrass and lime leaves",
      "Adjust sourness with lime juice",
      "Add coconut milk for Tom Yum Goong"]⟩),
  ("Massaman Curry",
    ⟨"4", "Massaman Curry", "Thai", "Rich peanut-based curry", "45 min", "480 kcal",
    [
      "400ml coconut milk",
      "3 tbsp Massaman curry paste",
      "500g beef or chicken",
      "3 potatoes, cubed",
      "1 onion, quartered",
      "1/2 cup roasted peanuts",
      "2 tbsp tamarind paste",
      "2 tbsp palm sugar",
      "3 tbsp fish sauce",
      "Bay leaves",
      "Cinnamon stick"],
    [
      "Fry curry paste in thick coconut cream",
      "Add meat, coat with paste",
      "Add remaining coconut milk and spices",
      "Simmer until meat is tender (30 min)",
      "Add potatoes and onions",
      "Cook until potatoes are soft",
      "Stir in tamarind, sugar, fish sauce",
      "Add peanuts",
      "Simmer 5 more minutes"],
    [
      "Slow cooking makes meat more tender",
      "Balance sweet, sour, and salty flavors",
      "Traditionally made with beef"]⟩),
  ("Som Tam",
    ⟨"5", "Som Tam", "Thai", "Spicy green papaya salad", "15 min", "150 kcal",
    [
      "2 cups green papaya, shredded",
      "2 cloves garlic",
      "2-3 Thai chilies",
      "2 tbsp dried shrimp",
      "1/4 cup roasted peanuts",
      "2 tomatoes, cut into wedges",
      "2 tbsp lime juice",
      "1 tbsp fish sauce",
      "1 tbsp palm sugar",
      "Long beans"],
    [
      "Pound garlic and chilies in mortar",
      "Add palm sugar, pound to combine",
      "Add dried shrimp, pound lightly",
      "Add green papaya, pound to bruise",
      "Add fish sauce and lime juice",
      "Add tomatoes and beans, toss gently",
      "Add peanuts, toss",
      "Adjust seasoning",
      "Serve immediately"],
    [
      "Use a mortar and pestle for authentic texture",
      "Adjust chili level to preference",
      "Great with grilled chicken"]⟩),
  ("Mango Sticky Rice",
    ⟨"6", "Mango Sticky Rice", "Thai", "Sweet coconut rice with fresh mango", "30 min", "320 kcal",
    [
      "2 cups sticky rice",
      "1 cup coconut milk",
      "1/2 cup sugar",
      "1/2 tsp salt",
      "2 ripe mangoes, sliced",
      "Sesame seeds for garnish",
      "Mung beans (optional)"],
    [
      "Soak sticky rice for 4 hours",
      "Steam rice until tender (20-25 min)",
      "Heat coconut milk with sugar and salt",
      "Pour warm coconut milk over hot rice",
      "Cover and let sit 15 minutes",
      "Serve rice with sliced mango",
      "Drizzle with extra coconut cream",
      "Sprinkle with sesame seeds"],
    [
      "Use Thai sticky rice, not regular rice",
      "Mangoes should be ripe and sweet",
      "Best served at room temperature"]⟩),
  ("Lentil Soup",
    ⟨"2", "Lentil Soup", "Vegan", "Hearty and nutritious lentil soup", "40 min", "280 kcal",
    [
      "2 cups red lentils",
      "1 onion, diced",
      "2 carrots, diced",
      "2 celery stalks, diced",
      "4 cloves garlic",
      "1 can diced tomatoes",
      "6 cups vegetable broth",
      "2 tsp cumin",
      "1 tsp turmeric",
      "Bay leaves",
      "Lemon juice",
      "Fresh parsley"],
    [
      "Sauté onion, carrots, celery until soft",
      "Add garlic and spices, cook 1 minute",
      "Add lentils, tomatoes, broth",
      "Add bay leaves",
      "Bring to boil, then simmer 25-30 minutes",
      "Remove bay leaves",
      "Blend partially if desired",
      "Add lemon juice",
      "Season to taste",
      "Garnish with parsley"],
    [
      "Red lentils cook faster than other varieties",
      "Soup thickens as it sits - add water as needed",
      "Freezes well for meal prep"]⟩),
  ("Vegan Tacos",
    ⟨"3", "Vegan Tacos", "Vegan", "Plant-based tacos with beans and veggies", "20 min", "320 kcal",
    [
      "8 corn tortillas",
      "2 cups black beans, cooked",
      "1 bell pepper, diced",
      "1 onion, diced",
      "1 cup corn",
      "2 tsp cumin",
      "1 tsp chili powder",
      "Avocado, sliced",
      "Salsa",
      "Cilantro",
      "Lime wedges",
      "Cabbage slaw"],
    [
      "Sauté onion and pepper until soft",
      "Add black beans, corn, and spices",
      "Cook until heated through",
      "Warm tortillas",
      "Fill with bean mixture",
      "Top with avocado, salsa, cilantro",
      "Add cabbage slaw for crunch",
      "Squeeze lime over top",
      "Serve immediately"],
    [
      "Season beans well - they're the star",
      "Toast tortillas for extra flavor",
      "Add hot sauce for spice"]⟩),
  ("Chickpea Curry",
    ⟨"4", "Chickpea Curry", "Vegan", "Spiced chickpeas in tomato sauce", "35 min", "360 kcal",
    [
      "2 cans chickpeas, drained",
      "1 can coconut milk",
      "400g crushed tomatoes",
      "1 onion, diced",
      "4 cloves garlic",
      "2 tbsp ginger",
      "2 tsp curry powder",
      "1 tsp cumin",
      "1 tsp turmeric",
      "Fresh spinach",
      "Cilantro"],
    [
      "Sauté onion until golden",
      "Add garlic and ginger, cook 1 minute",
      "Add spices, toast 30 seconds",
      "Add tomatoes, simmer 10 minutes",
      "Add chickpeas and coconut milk",
      "Simmer 15 minutes until thickened",
      "Stir in spinach until wilted",
      "Season to taste",
      "Garnish with cilantro"],
    [
      "Great for meal prep",
      "Serve over rice or with naan",
      "Add more coconut milk for creamier curry"]⟩),
  ("Avocado Toast",
    ⟨"5", "Avocado Toast", "Vegan", "Crusty bread with mashed avocado", "10 min", "240 kcal",
    [
      "2 slices whole grain bread",
      "1 ripe avocado",
      "Lemon juice",
      "Red pepper flakes",
      "Salt and pepper",
      "Cherry tomatoes",
      "Microgreens or arugula",
      "Everything bagel seasoning"],
    [
      "Toast bread until golden and crispy",
      "Mash avocado with lemon juice",
      "Season with salt and pepper",
      "Spread avocado on toast",
      "Top with sliced cherry tomatoes",
      "Sprinkle with red pepper flakes",
      "Add microgreens",
      "Finish with everything seasoning"],
    [
      "Use perfectly ripe avocado",
      "Add nutritional yeast for cheesy flavor",
      "Top with hemp seeds for protein"]⟩),
  ("Veggie Stir Fry",
    ⟨"6", "Veggie Stir Fry", "Vegan", "Colorful vegetables in savory sauce", "20 min", "260 kcal",
    [
      "2 cups broccoli florets",
      "1 bell pepper, sliced",
      "1 cup snap peas",
      "1 carrot, sliced",
      "200g mushrooms",
      "3 cloves garlic",
      "1 tbsp ginger",
      "3 tbsp soy sauce",
      "1 tbsp sesame oil",
      "2 tsp cornstarch",
      "Sesame seeds"],
    [
      "Mix soy sauce, sesame oil, cornstarch with water",
      "Heat wok or large pan over high heat",
      "Add garlic and ginger, stir-fry 30 seconds",
      "Add harder vegetables (carrot, broccoli) first",
      "Stir-fry 3 minutes",
      "Add softer vegetables",
      "Stir-fry 2 more minutes",
      "Add sauce, toss until thickened",
      "Garnish with sesame seeds"],
    [
      "Keep vegetables crisp-tender",
      "Don't overcrowd the pan",
      "Serve over rice or noodles"]⟩),
  ("Cheesecake",
    ⟨"2", "Cheesecake", "Dessert", "Creamy New York style cheesecake", "90 min", "480 kcal",
    [
      "2 cups graham cracker crumbs",
      "1/2 cup butter, melted",
      "900g cream cheese, softened",
      "1 cup sugar",
      "4 eggs",
      "1 tsp vanilla extract",
      "1/2 cup sour cream",
      "Pinch of salt"],
    [
      "Preheat oven to 325°F (160°C)",
      "Mix graham crumbs with melted butter",
      "Press into bottom of 9-inch springform pan",
      "Beat cream cheese and sugar until smooth",
      "Add eggs one at a time",
      "Mix in vanilla and sour cream",
      "Pour over crust",
      "Bake 55-60 minutes (center should jiggle slightly)",
      "Cool completely, refrigerate 4 hours"],
    [
      "Room temperature ingredients mix smoother",
      "Don't overbake - it sets as it cools",
      "Water bath prevents cracks"]⟩),
  ("Apple Pie",
    ⟨"3", "Apple Pie", "Dessert", "Classic American apple pie", "75 min", "420 kcal",
    [
      "2 pie crusts",
      "6 cups apples, peeled and sliced",
      "3/4 cup sugar",
      "2 tbsp flour",
      "1 tsp cinnamon",
      "1/4 tsp nutmeg",
      "2 tbsp butter",
      "1 egg for wash",
      "Vanilla ice cream for serving"],
    [
      "Preheat oven to 425°F (220°C)",
      "Mix apples with sugar, flour, cinnamon, nutmeg",
      "Line pie dish with one crust",
      "Fill with apple mixture",
      "Dot with butter",
      "Cover with second crust, seal edges",
      "Cut vents in top",
      "Brush with beaten egg",
      "Bake 45-50 minutes until golden",
      "Cool before slicing"],
    [
      "Use mix of tart and sweet apples",
      "Don't skip the egg wash for golden crust",
      "Serve warm with vanilla ice cream"]⟩),
  ("Chocolate Brownies",
    ⟨"5", "Chocolate Brownies", "Dessert", "Fudgy chocolate brownies", "35 min", "340 kcal",
    [
      "200g dark chocolate",
      "150g butter",
      "1 cup sugar",
      "3 eggs",
      "3/4 cup flour",
      "1/4 cup cocoa powder",
      "1/2 tsp salt",
      "1 tsp vanilla",
      "Chocolate chips (optional)"],
    [
      "Preheat oven to 350°F (175°C)",
      "Grease 9x9 inch pan",
      "Melt chocolate and butter together",
      "Stir in sugar",
      "Beat in eggs one at a time",
      "Add vanilla",
      "Fold in flour, cocoa, salt",
      "Add chocolate chips if using",
      "Pour into pan",
      "Bake 25-30 minutes (don't overbake)",
      "Cool completely before cutting"],
    [
      "Slightly underbake for fudgier brownies",
      "Let cool completely for clean cuts",
      "Store in airtight container"]⟩),
  ("Crème Brûlée",
    ⟨"6", "Crème Brûlée", "Dessert", "French custard with caramelized sugar", "50 min", "360 kcal",
    [
      "2 cups heavy cream",
      "1 vanilla bean (or 2 tsp extract)",
      "5 egg yolks",
      "1/2 cup sugar plus extra for topping",
      "Pinch of salt"],
    [
      "Preheat oven to 325°F (160°C)",
      "Heat cream with vanilla bean until simmering",
      "Whisk egg yolks with 1/2 cup sugar",
      "Slowly whisk hot cream into eggs",
      "Strain mixture",
      "Pour into ramekins",
      "Place in baking dish, add hot water halfway up sides",
      "Bake 35-40 minutes until set but jiggly",
      "Refrigerate 4 hours",
      "Sprinkle sugar on top, torch until caramelized"],
    [
      "Water bath ensures even cooking",
      "Chill thoroughly before torching",
      "Use a kitchen torch for best caramelization"]⟩),
  ("Hummus",
    ⟨"2", "Hummus", "Mediterranean", "Chickpea dip with tahini and lemon", "10 min", "180 kcal",
    [
      "2 cans chickpeas, drained",
      "1/4 cup tahini",
      "3 tbsp lemon juice",
      "2 cloves garlic",
      "3 tbsp olive oil",
      "1/2 tsp cumin",
      "Salt",
      "Paprika for garnish",
      "Fresh parsley"],
    [
      "Reserve some chickpeas for garnish",
      "Blend chickpeas, tahini, lemon, garlic",
      "Add olive oil while blending",
      "Add cold water for desired consistency",
      "Season with cumin and salt",
      "Transfer to serving bowl",
      "Drizzle with olive oil",
      "Garnish with paprika, chickpeas, parsley",
      "Serve with pita bread"],
    [
      "Remove chickpea skins for ultra-smooth hummus",
      "Add ice water for creamier texture",
      "Adjust lemon and garlic to taste"]⟩),
  ("Falafel",
    ⟨"3", "Falafel", "Mediterranean", "Crispy fried chickpea balls", "30 min", "320 kcal",
    [
      "2 cups dried chickpeas, soaked overnight",
      "1 onion, quartered",
      "4 cloves garlic",
      "1 cup fresh parsley",
      "1 cup fresh cilantro",
      "2 tsp cumin",
      "1 tsp coriander",
      "1/2 tsp cayenne",
      "2 tbsp flour",
      "1 tsp baking powder",
      "Salt",
      "Oil for frying"],
    [
      "Drain chickpeas well",
      "Pulse chickpeas, onion, garlic, herbs in food processor",
      "Add spices, flour, baking powder, salt",
      "Pulse until mixture holds together",
      "Refrigerate 1 hour",
      "Form into small balls or patties",
      "Heat oil to 350°F (175°C)",
      "Fry in batches until golden brown",
      "Drain on paper towels",
      "Serve in pita with tahini sauce"],
    [
      "Use dried chickpeas, not canned",
      "Don't over-process - mixture should be coarse",
      "Chilling helps them hold shape"]⟩),
  ("Grilled Fish",
    ⟨"4", "Grilled Fish", "Mediterranean", "Fresh fish with lemon and herbs", "25 min", "280 kcal",
    [
      "4 fish fillets (sea bass or snapper)",
      "3 tbsp olive oil",
      "2 lemons",
      "4 cloves garlic, minced",
      "Fresh oregano or thyme",
      "Fresh parsley",
      "Salt and pepper",
      "Cherry tomatoes"],
    [
      "Marinate fish with olive oil, lemon juice, garlic, herbs",
      "Let sit 15 minutes",
      "Preheat grill or grill pan to medium-high",
      "Oil grill grates",
      "Season fish with salt and pepper",
      "Grill 4-5 minutes per side (don't overcook)",
      "Add cherry tomatoes to grill",
      "Squeeze fresh lemon over cooked fish",
      "Garnish with fresh herbs"],
    [
      "Don't flip fish too early - let it develop crust",
      "Fish is done when it flakes easily",
      "Skin-on helps fish stay together"]⟩),
  ("Moussaka",
    ⟨"5", "Moussaka", "Mediterranean", "Layered eggplant casserole", "90 min", "480 kcal",
    [
      "3 large eggplants, sliced",
      "500g ground lamb or beef",
      "1 onion, diced",
      "3 cloves garlic",
      "400g crushed tomatoes",
      "2 cups béchamel sauce",
      "1/2 cup Parmesan cheese",
      "Cinnamon",
      "Oregano",
      "Olive oil"],
    [
      "Salt eggplant slices, let sit 30 minutes, rinse",
      "Brush with oil, bake until soft",
      "Brown meat with onion and garlic",
      "Add tomatoes, cinnamon, oregano, simmer 20 minutes",
      "Make béchamel sauce",
      "Layer: eggplant, meat sauce, eggplant, repeat",
      "Top with béchamel and Parmesan",
      "Bake at 350°F (175°C) for 45 minutes",
      "Let rest 15 minutes before serving"],
    [
      "Salting eggplant removes bitterness",
      "Let it rest for easier slicing",
      "Reheat well - great for leftovers"]⟩),
  ("Baklava",
    ⟨"6", "Baklava", "Mediterranean", "Sweet pastry with nuts and honey", "60 min", "420 kcal",
    [
      "1 package phyllo dough",
      "2 cups mixed nuts (walnuts, pistachios), chopped",
      "1 cup butter, melted",
      "1 tsp cinnamon",
      "1 cup sugar",
      "1 cup water",
      "1/2 cup honey",
      "1 tsp vanilla",
      "Lemon juice"],
    [
      "Preheat oven to 350°F (175°C)",
      "Mix nuts with cinnamon",
      "Brush baking dish with butter",
      "Layer 8 phyllo sheets, brushing each with butter",
      "Sprinkle nut mixture",
      "Repeat layers",
      "Top with 8 more phyllo sheets",
      "Cut into diamonds before baking",
      "Bake 45-50 minutes until golden",
      "Make syrup: boil sugar, water, honey",
      "Pour hot syrup over hot baklava",
      "Cool completely before serving"],
    [
      "Keep phyllo covered with damp towel",
      "Cut before baking for clean pieces",
      "Let syrup soak in overnight"]⟩),
  ("Vegetable Tempura",
    ⟨"4b", "Vegetable Tempura", "Japanese", "Lightly battered and fried seafood and vegetables", "30 min", "340 kcal",
    [
      "200g shrimp, peeled",
      "Assorted vegetables (sweet potato, zucchini, bell pepper)",
      "1 cup flour",
      "1 egg yolk",
      "1 cup ice cold water",
      "Oil for deep frying",
      "Tempura dipping sauce",
      "Grated daikon radish"],
    [
      "Heat oil to 350°F (175°C)",
      "Mix egg yolk with ice water",
      "Add flour, stir gently (lumps are okay)",
      "Pat shrimp and vegetables dry",
      "Dip in batter, let excess drip off",
      "Fry in batches until light golden (2-3 min)",
      "Drain on paper towels",
      "Serve immediately with dipping sauce and daikon"],
    [
      "Keep batter ice cold for crispy tempura",
      "Don't overmix - lumps are fine",
      "Fry in small batches to maintain oil temperature"]⟩),
  ("Classic Caesar Salad",
    ⟨"1", "Classic Caesar Salad", "General", "Fresh romaine with parmesan and croutons", "15 min", "280 kcal",
    [
      "1 large head romaine lettuce",
      "1/2 cup Parmesan cheese, shaved",
      "1 cup croutons",
      "2 cloves garlic",
      "4 anchovy fillets",
      "1 egg yolk",
      "2 tbsp lemon juice",
      "1 tsp Dijon mustard",
      "1/2 cup olive oil",
      "Black pepper"],
    [
      "Chop romaine into bite-sized pieces",
      "Make dressing: mash garlic and anchovies",
      "Whisk in egg yolk, lemon juice, mustard",
      "Slowly drizzle in olive oil while whisking",
      "Season with pepper",
      "Toss romaine with dressing",
      "Add Parmesan and croutons",
      "Toss again",
      "Serve immediately"],
    [
      "Use fresh, crisp romaine",
      "Make croutons from stale bread",
      "Classic Caesar has raw egg - use pasteurized if concerned"]⟩),
  ("Grilled Chicken Breast",
    ⟨"2", "Grilled Chicken Breast", "General", "Juicy herb-seasoned chicken", "25 min", "320 kcal",
    [
      "4 chicken breasts",
      "3 tbsp olive oil",
      "2 cloves garlic, minced",
      "1 tsp dried oregano",
      "1 tsp paprika",
      "1/2 tsp thyme",
      "Salt and pepper",
      "Lemon wedges"],
    [
      "Pound chicken to even thickness",
      "Mix olive oil, garlic, herbs, salt, pepper",
      "Marinate chicken 15 minutes",
      "Preheat grill or grill pan to medium-high",
      "Oil grill grates",
      "Grill chicken 6-7 minutes per side",
      "Check internal temp reaches 165°F",
      "Let rest 5 minutes",
      "Serve with lemon wedges"],
    [
      "Don't overcook - use meat thermometer",
      "Resting keeps chicken juicy",
      "Slice against grain for tender pieces"]⟩),
  ("Vegetable Stir Fry",
    ⟨"3", "Vegetable Stir Fry", "General", "Colorful mixed vegetables in savory sauce", "20 min", "240 kcal",
    [
      "2 cups broccoli florets",
      "1 bell pepper, sliced",
      "1 cup snap peas",
      "1 carrot, sliced",
      "200g mushrooms",
      "3 cloves garlic",
      "1 tbsp ginger",
      "3 tbsp soy sauce",
      "1 tbsp sesame oil",
      "2 tsp cornstarch"],
    [
      "Mix soy sauce, sesame oil, cornstarch with water",
      "Heat wok over high heat",
      "Add garlic and ginger",
      "Add harder vegetables first",
      "Stir-fry 3 minutes",
      "Add softer vegetables",
      "Stir-fry 2 more minutes",
      "Add sauce",
      "Toss until thickened"],
    [
      "Keep vegetables crisp",
      "High heat is essential",
      "Don't overcrowd the pan"]⟩),
  ("Beef Burger",
    ⟨"4", "Beef Burger", "General", "Juicy beef patty with toppings", "30 min", "520 kcal",
    [
      "500g ground beef (80/20)",
      "4 burger buns",
      "Salt and pepper",
      "4 cheese slices",
      "Lettuce",
      "Tomato slices",
      "Onion slices",
      "Pickles",
      "Ketchup",
      "Mustard",
      "Mayo"],
    [
      "Divide beef into 4 portions",
      "Form into patties, make indent in center",
      "Season generously with salt and pepper",
      "Heat grill or pan to high",
      "Cook 4 minutes per side for medium",
      "Add cheese last minute of cooking",
      "Toast buns",
      "Assemble: bun, sauce, lettuce, patty, toppings",
      "Serve immediately"],
    [
      "Don't overwork the meat",
      "Indent prevents puffing up",
      "Let patties come to room temperature"]⟩),
  ("Pasta Primavera",
    ⟨"5", "Pasta Primavera", "General", "Pasta with fresh seasonal vegetables", "25 min", "380 kcal",
    [
      "400g pasta",
      "2 cups broccoli",
      "1 zucchini, sliced",
      "1 bell pepper, sliced",
      "1 cup cherry tomatoes",
      "3 cloves garlic",
      "1/2 cup cream",
      "1/2 cup Parmesan",
      "Olive oil",
      "Fresh basil"],
    [
      "Cook pasta until al dente",
      "Sauté garlic in olive oil",
      "Add broccoli and peppers, cook 5 minutes",
      "Add zucchini and tomatoes",
      "Cook 3 more minutes",
      "Add cream and Parmesan",
      "Toss with drained pasta",
      "Season to taste",
      "Garnish with basil"],
    [
      "Use seasonal vegetables",
      "Don't overcook vegetables",
      "Add pasta water to thin sauce"]⟩),
  ("Fruit Salad",
    ⟨"6", "Fruit Salad", "General", "Fresh mixed fruits with honey", "10 min", "150 kcal",
    [
      "2 cups strawberries, halved",
      "2 cups pineapple chunks",
      "2 cups grapes",
      "2 oranges, segmented",
      "1 cup blueberries",
      "2 kiwis, sliced",
      "2 tbsp honey",
      "Juice of 1 lime",
      "Fresh mint leaves"],
    [
      "Prepare all fruits",
      "Combine in large bowl",
      "Mix honey with lime juice",
      "Drizzle over fruit",
      "Toss gently",
      "Chill 30 minutes",
      "Garnish with mint",
      "Serve cold"],
    [
      "Use ripe, seasonal fruit",
      "Add honey-lime dressing just before serving",
      "Great for meal prep"]⟩)
]

/-! # The gemini service entry points -/

/-- JS `String.prototype.includes`. -/
def jsIncludes (s pattern : String) : Bool :=
  decide (List.IsInfix pattern.data s.data)

/-- fetchRecipeDetails: cache check, static catalog, generation provider,
with translate-and-cache for non-English targets.  The English content is
persisted (setCachedRecipe with language "en") before translation is
attempted.  `translated[0]` becomes `translated.head?`: when the parsed
translation response is an array this is its first element, and the
undefined produced by a wrong-shape (e.g. empty-array) response is `none`,
which the caller stores nowhere and returns as an absent result. -/
def fetchRecipeDetails (env : Env) (now : Nat) (st : GeminiState)
    (recipeName : String) (targetLanguage : String) :
    Option RecipeDetail × GeminiState :=
  let currentLang := targetLanguage
  match getCachedRecipe now st.recipeCache recipeName currentLang with
  | (some cachedRecipe, rc) => (some cachedRecipe, { st with recipeCache := rc })
  | (none, rc) =>
    let st1 := { st with recipeCache := rc }
    match assocGet staticRecipes recipeName with
    | some englishRecipe =>
      let st2 := { st1 with
        recipeCache :=
          setCachedRecipe now st1.recipeCache recipeName englishRecipe "en" none }
      if currentLang == "en" then (some englishRecipe, st2)
      else
        let tr := translateRecipeContentD env st2 [englishRecipe] currentLang
        let translated := tr.1
        let st3 := tr.2
        let translatedRecipe := translated.head?
        let st4 := { st3 with
          recipeCache :=
            setCachedRecipe now st3.recipeCache recipeName englishRecipe
              currentLang translatedRecipe }
        (translatedRecipe, st4)
    | none =>
      match env.genDetail recipeName with
      | none => (none, { st1 with genCalls := st1.genCalls + 1 })
      | some generatedRecipe =>
        let st2 := { st1 with genCalls := st1.genCalls + 1 }
        let st3 := { st2 with
          recipeCache :=
            setCachedRecipe now st2.recipeCache recipeName generatedRecipe "en" none }
        if currentLang == "en" then (some generatedRecipe, st3)
        else
          let tr := translateRecipeContentD env st3 [generatedRecipe] currentLang
          let translated := tr.1
          let st4 := tr.2
          let translatedRecipe := translated.head?
          let st5 := { st4 with
            recipeCache :=
              setCachedRecipe now st4.recipeCache recipeName generatedRecipe
                currentLang translatedRecipe }
          (translatedRecipe, st5)

/-- The fallback block at the end of searchRecipes: the fixed editorial
list, translated when the language is not English. -/
def searchFallback (env : Env) (st : GeminiState) (currentLang : String) :
    List RecipeSummary × GeminiState :=
  if currentLang != "en" then translateRecipeContentS env st fallbackRecipes currentLang
  else (fallbackRecipes, st)

/-- searchRecipes: translate the query to English, try an exact category
match, then a 1-to-3 element name-substring match (which also requires the
query to be at least 4 characters long), then the generation provider, then
the editorial fallback.  `currentLang` is `i18n.language` in the source,
passed explicitly here. -/
def searchRecipes (env : Env) (st : GeminiState) (query : String)
    (currentLang : String) : List RecipeSummary × GeminiState :=
  match (if currentLang != "en"
         then translateSearchQuery env st query currentLang
         else (query, st)) with
  | (englishQuery, st1) =>
    let searchLower := jsToLower englishQuery
    let categoryRecipes := allRecipes.filter (fun r => jsToLower r.category == searchLower)
    if categoryRecipes.length > 0 then
      if currentLang != "en" then
        translateRecipeContentS env st1 categoryRecipes currentLang
      else (categoryRecipes, st1)
    else
      let exactMatches := allRecipes.filter
        (fun r => jsIncludes (jsToLower r.name) searchLower && decide (4 ≤ searchLower.length))
      if exactMatches.length > 0 ∧ exactMatches.length ≤ 3 then
        if currentLang != "en" then
          translateRecipeContentS env st1 exactMatches currentLang
        else (exactMatches, st1)
      else
        match env.genList englishQuery with
        | some generatedRecipes =>
          let st2 := { st1 with genCalls := st1.genCalls + 1 }
          if generatedRecipes.length > 0 then
            if currentLang != "en" then
              translateRecipeContentS env st2 generatedRecipes currentLang
            else (generatedRecipes, st2)
          else searchFallback env st2 currentLang
        | none =>
          let st2 := { st1 with genCalls := st1.genCalls + 1 }
          searchFallback env st2 currentLang

/-! # Image service (src/services/imageService.ts) -/

def DEFAULT_IMAGE : String :=
  "https://images.unsplash.com/photo-1504674900247-0877df9cc836"

/-- The deterministic fallback URL built from the default image and the
requested dimensions. -/
def fallbackImageUrl (width height : Nat) : String :=
  DEFAULT_IMAGE ++ "?w=" ++ toString width ++ "&h=" ++ toString height ++
    "&fit=crop&q=80"

/-- The image-cache key: lowercased name plus the dimensions. -/
def imageCacheKey (recipeName : String) (width height : Nat) : String :=
  jsToLower recipeName ++ ":" ++ toString width ++ "x" ++ toString height

/-- fetchRecipeImage: cache hit, else (no credential) deterministic
fallback, else provider search.  `search` is the Unsplash call on the
derived query; `none` covers a non-ok response, an empty result list and a
thrown error.  The returned Nat counts provider calls made by this
invocation. -/
def fetchRecipeImage (hasKey : Bool) (search : String → Option String)
    (cache : List (String × String)) (recipeName : String)
    (width height : Nat) : String × List (String × String) × Nat :=
  let cacheKey := imageCacheKey recipeName width height
  match assocGet cache cacheKey with
  | some url => (url, cache, 0)
  | none =>
    if !hasKey then
      let fallback := fallbackImageUrl width height
      (fallback, assocSet cache cacheKey fallback, 0)
    else
      match search (recipeName ++ " food dish") with
      | some raw =>
        let url := raw ++ "&w=" ++ toString width ++ "&h=" ++ toString height ++
          "&fit=crop&q=80"
        (url, assocSet cache cacheKey url, 1)
      | none =>
        let fallback := fallbackImageUrl width height
        (fallback, assocSet cache cacheKey fallback, 1)

/-! # Staleness guard of useRecipe (src/hooks/useRecipe.ts)

`loadRecipe` captures `recipeName` in its closure and computes
`fetchKey = recipeName + ":" + i18n.language` before awaiting
fetchRecipeDetails.  After the await it recomputes the key from the same
closure variable `recipeName` and the live `i18n.language` and commits the
result only when the two keys agree. -/

/-- One issued load request: the closure's `recipeName` and the fetch key
computed at issue time. -/
structure LoadRequest where
  closureRecipeName : String
  fetchKey : String
deriving DecidableEq

def mkFetchKey (recipeName lang : String) : String :=
  recipeName ++ ":" ++ lang

/-- Issuing a request captures the name and the key. -/
def issueLoadRecipe (recipeName lang : String) : LoadRequest :=
  ⟨recipeName, mkFetchKey recipeName lang⟩

/-- The post-await relevance check: the key recomputed from the closure's
recipeName and the language current at resolution time must equal the
stored fetch key. -/
def loadRecipeIsCurrent (req : LoadRequest) (langAtResolve : String) : Bool :=
  mkFetchKey req.closureRecipeName langAtResolve == req.fetchKey

/-- The state commit guarded by the relevance check: when the check passes
the fetched data replaces the visible recipe, otherwise the result is
dropped. -/
def commitLoadRecipe (req : LoadRequest) (langAtResolve : String)
    (data : Option RecipeDetail) (visible : Option RecipeDetail) :
    Option RecipeDetail :=
  if loadRecipeIsCurrent req langAtResolve then data else visible


/-! # Concrete environments used by witnesses and counterexamples -/

set_option maxRecDepth 400000

/-- An environment in which every provider call fails (throws / is
unavailable / unparsable response). -/
def envAllFail : Env :=
  ⟨fun _ _ => none, fun _ => none, fun _ _ => none, fun _ _ => none,
   fun _ => none, fun _ => none⟩

/-- An environment whose translation provider answers with a response that
parses to a valid JSON value of the wrong shape (an empty array), so the
parse itself does not throw. -/
def envEmptyArrayTranslation : Env :=
  { envAllFail with transDetails := fun _ _ => some [] }

/-- C3 counterexample: with a translation-provider response that parses to
valid JSON of the wrong shape (an empty array), fetchRecipeDetails for a
statically resolvable recipe in Spanish returns an absent result instead of
the English content: `translated[0]` is undefined and is returned as-is. -/
theorem fetchRecipeDetails_wrong_shape_translation_absent :
    (fetchRecipeDetails envEmptyArrayTranslation 0 initState
      "Spaghetti Carbonara" "es").1 = none := by
  rfl

/-- C8 (code bug): after issuing a request for a first recipe and then a
second request for a different recipe in the same language, the first
request still passes the post-await relevance check — the check recomputes
the key from the closure's own recipeName, so a recipe-name change is
undetectable — and its stale result is committed to visible state. -/
theorem useRecipe_stale_commit :
    (issueLoadRecipe "Spaghetti Carbonara" "en").fetchKey ≠
      (issueLoadRecipe "Tiramisu" "en").fetchKey ∧
    loadRecipeIsCurrent (issueLoadRecipe "Spaghetti Carbonara" "en") "en" = true ∧
    commitLoadRecipe (issueLoadRecipe "Spaghetti Carbonara" "en") "en"
      (some spaghettiCarbonara) none = some spaghettiCarbonara := by
  refine ⟨by decide, rfl, rfl⟩

/-! Two source texts sharing a 50-character prefix, and two structured
contents whose serializations share a 50-character prefix but differ within
the first 100 characters. -/

def collisionTextA : String := String.mk (List.replicate 50 'a') ++ "X"

def collisionTextB : String := String.mk (List.replicate 50 'a') ++ "Y"

def envPrefixText : Env :=
  { envAllFail with
      transText := fun t _ => if t == collisionTextA then some "T1" else some "T2" }

def fingerprintRecipeA : RecipeDetail :=
  ⟨String.mk (List.replicate 50 'a'), "N", "C", "D", "P", "K", [], [], []⟩

def fingerprintRecipeB : RecipeDetail :=
  ⟨String.mk (List.replicate 42 'a') ++ String.mk (List.replicate 8 'b'),
   "N", "C", "D", "P", "K", [], [], []⟩

def translatedListA : List RecipeDetail :=
  [⟨"t", "Translated", "C", "D", "P", "K", [], [], []⟩]

def envPrefixStructured : Env :=
  { envAllFail with
      transDetails := fun c _ =>
        if c == [fingerprintRecipeA] then some translatedListA
        else some [fingerprintRecipeB] }

/-- C10 counterexample (to the claimed 100-character structured
fingerprint): two distinct structured contents whose serializations agree on
the first 50 characters but differ within the first 100 characters are
nevertheless assigned the same memo entry — after the first is translated
and memoized, translating the second returns the first content's memoized
translation with no provider call and no state change, because getCacheKey
re-truncates its text argument to 50 characters. -/
theorem transMemo_structured_key_counterexample :
    fingerprintRecipeA ≠ fingerprintRecipeB ∧
    (serializeDetails [fingerprintRecipeA]).take 50 =
      (serializeDetails [fingerprintRecipeB]).take 50 ∧
    (serializeDetails [fingerprintRecipeA]).take 100 ≠
      (serializeDetails [fingerprintRecipeB]).take 100 ∧
    translateRecipeContentD envPrefixStructured
      (translateRecipeContentD envPrefixStructured initState
        [fingerprintRecipeA] "es").2
      [fingerprintRecipeB] "es"
      = (translatedListA,
         (translateRecipeContentD envPrefixStructured initState
           [fingerprintRecipeA] "es").2) := by
  refine ⟨by decide, by decide, by decide, by decide⟩

/-- C10 (amended): the translation-memo key is the language pair plus the
first 50 characters of the source text — for structured translation the
serialized object is truncated to 100 characters and then re-truncated to 50
by getCacheKey — so two distinct texts sharing a 50-character prefix
collide: after the first is translated and memoized, translateText for the
second returns the first text's memoized translation with no provider call
and no state change. -/
theorem transMemo_prefix_collision :
    collisionTextA ≠ collisionTextB ∧
    getTransCacheKey collisionTextA "en" "es" =
      getTransCacheKey collisionTextB "en" "es" ∧
    (translateText envPrefixText initState collisionTextA "es" "en").1 = "T1" ∧
    (translateText envPrefixText initState collisionTextA "es" "en").2.transCalls = 1 ∧
    translateText envPrefixText
      (translateText envPrefixText initState collisionTextA "es" "en").2
      collisionTextB "es" "en"
      = ("T1", (translateText envPrefixText initState collisionTextA "es" "en").2) := by
  refine ⟨by decide, by decide, by decide, by decide, by decide⟩


/-- C9: with no configured credential — and likewise on a failed or empty
provider lookup — fetchRecipeImage returns the deterministic fallback URL
parameterized by the requested dimensions and memoizes it under the
(lowercased name, width, height) key, so an identical second call is served
from the cache with zero provider calls and no cache change. -/
theorem fetchRecipeImage_placeholder_memoized
    (search : String → Option String) (cache : List (String × String))
    (recipeName : String) (width height : Nat)
    (hmiss : assocGet cache (imageCacheKey recipeName width height) = none) :
    ((fetchRecipeImage false search cache recipeName width height).1 =
        fallbackImageUrl width height ∧
      (fetchRecipeImage false search cache recipeName width height).2.2 = 0 ∧
      fetchRecipeImage false search
        (fetchRecipeImage false search cache recipeName width height).2.1
        recipeName width height
        = (fallbackImageUrl width height,
           (fetchRecipeImage false search cache recipeName width height).2.1, 0)) ∧
    (search (recipeName ++ " food dish") = none →
      ((fetchRecipeImage true search cache recipeName width height).1 =
          fallbackImageUrl width height ∧
        (fetchRecipeImage true search cache recipeName width height).2.2 = 1 ∧
        fetchRecipeImage true search
          (fetchRecipeImage true search cache recipeName width height).2.1
          recipeName width height
          = (fallbackImageUrl width height,
             (fetchRecipeImage true search cache recipeName width height).2.1, 0))) := by
  have hhit : ∀ (b : Bool) (c' : List (String × String)) (u : String),
      assocGet c' (imageCacheKey recipeName width height) = some u →
      fetchRecipeImage b search c' recipeName width height = (u, c', 0) := by
    intro b c' u hu
    simp only [fetchRecipeImage]
    rw [hu]
  have h1 : fetchRecipeImage false search cache recipeName width height
      = (fallbackImageUrl width height,
         assocSet cache (imageCacheKey recipeName width height)
           (fallbackImageUrl width height), 0) := by
    simp only [fetchRecipeImage]
    rw [hmiss]
    rfl
  constructor
  · refine ⟨by rw [h1], by rw [h1], ?_⟩
    rw [h1]
    exact hhit false _ _ (assocGet_assocSet_self _ _ _)
  · intro hsearch
    have h2 : fetchRecipeImage true search cache recipeName width height
        = (fallbackImageUrl width height,
           assocSet cache (imageCacheKey recipeName width height)
             (fallbackImageUrl width height), 1) := by
      simp only [fetchRecipeImage]
      rw [hmiss, hsearch]
      rfl
    refine ⟨by rw [h2], by rw [h2], ?_⟩
    rw [h2]
    exact hhit true _ _ (assocGet_assocSet_self _ _ _)

/-- Witness for C9 at the spec's concrete input: no credential, empty cache,
"Nonexistent Dish Xyz123" at 600 by 400. -/
theorem fetchRecipeImage_placeholder_memoized_witness :
    (fetchRecipeImage false (fun _ => none) [] "Nonexistent Dish Xyz123" 600 400).1 =
      fallbackImageUrl 600 400 :=
  (fetchRecipeImage_placeholder_memoized (fun _ => none) []
    "Nonexistent Dish Xyz123" 600 400 rfl).1.1

/-- The curated Italian static list: the six Italian entries of allRecipes. -/
def italianStaticList : List RecipeSummary := [
  ⟨"1", "Spaghetti Carbonara", "Italian", "Creamy pasta with bacon and eggs", "20 min", "450 kcal"⟩,
  ⟨"2", "Margherita Pizza", "Italian", "Classic pizza with tomato, mozzarella, and basil", "30 min", "380 kcal"⟩,
  ⟨"3", "Lasagna Bolognese", "Italian", "Layered pasta with meat sauce and cheese", "60 min", "520 kcal"⟩,
  ⟨"4", "Risotto Milanese", "Italian", "Creamy saffron rice dish", "35 min", "400 kcal"⟩,
  ⟨"5", "Tiramisu", "Italian", "Coffee-flavored Italian dessert", "25 min", "340 kcal"⟩,
  ⟨"6", "Pesto Pasta", "Italian", "Pasta with fresh basil pesto sauce", "15 min", "420 kcal"⟩]

/-- C6: for every provider environment and every starting state,
resolveSearchResults("Italian", "en") returns exactly the six curated
Italian static summaries and leaves the state — in particular both
provider-call counters — unchanged. -/
theorem searchRecipes_italian_short_circuit (env : Env) (st : GeminiState) :
    searchRecipes env st "Italian" "en" = (italianStaticList, st) ∧
    italianStaticList.length = 6 :=
  ⟨rfl, rfl⟩

/-- The category filter of searchRecipes on an already-lowercased query. -/
def categoryMatches (q : String) : List RecipeSummary :=
  allRecipes.filter (fun r => jsToLower r.category == q)

/-- The name-substring filter of searchRecipes on an already-lowercased
query (the query itself must have length at least 4). -/
def staticNameMatches (q : String) : List RecipeSummary :=
  allRecipes.filter
    (fun r => jsIncludes (jsToLower r.name) q && decide (4 ≤ q.length))

def genPadSummary : RecipeSummary :=
  ⟨"9", "Generated Pad Dish", "General", "AI generated", "10 min", "100 kcal"⟩

def envGenPad : Env :=
  { envAllFail with genList := fun _ => some [genPadSummary] }

/-- C7 counterexample: the three-character query "pad" appears as a
substring of exactly one static recipe name ("Pad Thai"; every static name
has length at least 4) and matches no category, yet searchRecipes does not
return that static match: the generation provider is invoked once, because
the code requires the query itself — not the recipe name — to be at least 4
characters long. -/
theorem searchRecipes_short_query_counterexample :
    (allRecipes.filter (fun r => jsIncludes (jsToLower r.name) "pad")).length = 1 ∧
    (∀ r ∈ allRecipes, 4 ≤ r.name.length) ∧
    categoryMatches "pad" = [] ∧
    (searchRecipes envGenPad initState "pad" "en").1 = [genPadSummary] ∧
    (searchRecipes envGenPad initState "pad" "en").2.genCalls = 1 := by
  refine ⟨by decide, by decide, by decide, by decide, by decide⟩

/-- C7 (amended): at language "en", when the lowercased query matches no
category and the query is at least 4 characters long and appears as a
substring of 1 to 3 static recipe names, exactly those static summaries are
returned with the state unchanged (zero provider calls); when the
substring-match set is empty or larger than 3 (including every query shorter
than 4 characters), the generation provider is invoked exactly once. -/
theorem searchRecipes_substring_rule (env : Env) (st : GeminiState) (query : String) :
    (categoryMatches (jsToLower query) = [] →
      1 ≤ (staticNameMatches (jsToLower query)).length →
      (staticNameMatches (jsToLower query)).length ≤ 3 →
      searchRecipes env st query "en" = (staticNameMatches (jsToLower query), st)) ∧
    (categoryMatches (jsToLower query) = [] →
      (staticNameMatches (jsToLower query) = [] ∨
        4 ≤ (staticNameMatches (jsToLower query)).length) →
      (searchRecipes env st query "en").2.genCalls = st.genCalls + 1) := by
  unfold categoryMatches staticNameMatches
  constructor
  · intro hcat h1 h3
    unfold searchRecipes
    simp only [bne_self_eq_false, Bool.false_eq_true, if_false]
    split
    · next hc => rw [hcat] at hc; simp at hc
    · split
      · simp only [bne_self_eq_false, Bool.false_eq_true, if_false]
      · next hc => exact absurd ⟨h1, h3⟩ hc
  · intro hcat hM
    unfold searchRecipes
    simp only [bne_self_eq_false, Bool.false_eq_true, if_false]
    split
    · next hc => rw [hcat] at hc; simp at hc
    · split
      · next hc =>
          exfalso
          rcases hM with hM | hM
          · rw [hM] at hc
            simp at hc
          · obtain ⟨hca, hcb⟩ := hc
            omega
      · rcases hg : env.genList query with _ | l
        · simp only [hg, searchFallback, bne_self_eq_false, Bool.false_eq_true,
            if_false]
        · simp only [hg]
          split
          · simp only [bne_self_eq_false, Bool.false_eq_true, if_false]
          · simp only [searchFallback, bne_self_eq_false, Bool.false_eq_true,
              if_false]

/-- Witness for C7's amended statement: "tiramisu" (8 characters, one static
match) returns exactly the Tiramisu summary from the static list; "zzzz"
(no match) invokes the generation provider once. -/
theorem searchRecipes_substring_rule_witness :
    searchRecipes envAllFail initState "tiramisu" "en"
      = (staticNameMatches (jsToLower "tiramisu"), initState) ∧
    (searchRecipes envAllFail initState "zzzz" "en").2.genCalls =
      initState.genCalls + 1 :=
  ⟨(searchRecipes_substring_rule envAllFail initState "tiramisu").1
      (by decide) (by decide) (by decide),
   (searchRecipes_substring_rule envAllFail initState "zzzz").2
      (by decide) (by decide)⟩


/-- C5: a record found under a name's key and written at time t0 is
returned by an English lookup at any time strictly inside the expiry window
(t0 + CACHE_EXPIRY_MS - eps, for any eps at least 1, with truncated Nat
subtraction), while a lookup at t0 + CACHE_EXPIRY_MS + eps misses: it
returns an absent result and purges the record from the store. -/
theorem getCachedRecipe_expiry_boundary
    (cache : List (String × CachedRecipe)) (name : String) (rec : CachedRecipe)
    (eps : Nat)
    (hnodup : (cache.map Prod.fst).Nodup)
    (hget : assocGet cache (getRecipeCacheKey name) = some rec)
    (heps : 1 ≤ eps) :
    (getCachedRecipe (rec.timestamp + CACHE_EXPIRY_MS - eps) cache name "en").1
      = some rec.english ∧
    (getCachedRecipe (rec.timestamp + CACHE_EXPIRY_MS + eps) cache name "en").1
      = none ∧
    assocGet
      (getCachedRecipe (rec.timestamp + CACHE_EXPIRY_MS + eps) cache name "en").2
      (getRecipeCacheKey name) = none := by
  have hvalid :
      isCacheValid (rec.timestamp + CACHE_EXPIRY_MS - eps) rec.timestamp = true := by
    simp only [isCacheValid, decide_eq_true_eq, CACHE_EXPIRY_MS]
    omega
  have hinvalid :
      isCacheValid (rec.timestamp + CACHE_EXPIRY_MS + eps) rec.timestamp = false := by
    simp only [isCacheValid, decide_eq_false_iff_not, CACHE_EXPIRY_MS]
    omega
  refine ⟨?_, ?_, ?_⟩
  · simp only [getCachedRecipe, hget]
    rw [hvalid]
    rfl
  · simp only [getCachedRecipe, hget]
    rw [hinvalid]
    rfl
  · simp only [getCachedRecipe, hget]
    rw [hinvalid]
    simp only [Bool.false_eq_true, if_false]
    exact assocGet_assocDelete_self_of_nodup hnodup

/-- A concrete one-record store used by the C5 witness. -/
def expiryWitnessRecord : CachedRecipe := ⟨spaghettiCarbonara, [], 10⟩

def expiryWitnessStore : List (String × CachedRecipe) :=
  [(getRecipeCacheKey "Spaghetti Carbonara", expiryWitnessRecord)]

/-- Witness for C5 at a concrete store, t0 = 10 and eps = 1. -/
theorem getCachedRecipe_expiry_boundary_witness :
    (getCachedRecipe (expiryWitnessRecord.timestamp + CACHE_EXPIRY_MS - 1)
       expiryWitnessStore "Spaghetti Carbonara" "en").1
      = some expiryWitnessRecord.english ∧
    (getCachedRecipe (expiryWitnessRecord.timestamp + CACHE_EXPIRY_MS + 1)
       expiryWitnessStore "Spaghetti Carbonara" "en").1 = none :=
  have h := getCachedRecipe_expiry_boundary expiryWitnessStore
    "Spaghetti Carbonara" expiryWitnessRecord 1 (by decide) (by decide) (by decide)
  ⟨h.1, h.2.1⟩

/-! Minimum-scan lemmas for evictOldestCache. -/

theorem findOldestKey_mem_keys (now : Nat)
    (cache : List (String × CachedRecipe)) (k : String)
    (h : (findOldestKey now cache).1 = some k) : k ∈ cache.map Prod.fst := by
  suffices H : ∀ (l : List (String × CachedRecipe)) (acc : Option String × Nat),
      ((l.foldl
        (fun acc e =>
          if e.2.timestamp < acc.2 then (some e.1, e.2.timestamp) else acc)
        acc).1 = some k) →
      acc.1 = some k ∨ k ∈ l.map Prod.fst by
    rcases H cache (none, now) h with h' | h'
    · simp at h'
    · exact h'
  intro l
  induction l with
  | nil => exact fun acc h' => Or.inl h'
  | cons e rest ih =>
    intro acc h'
    simp only [List.foldl_cons] at h'
    rcases ih _ h' with h'' | h''
    · by_cases hc : e.2.timestamp < acc.2
      · rw [if_pos hc] at h''
        simp only at h''
        injection h'' with h''
        exact Or.inr (by simp [h''])
      · rw [if_neg hc] at h''
        exact Or.inl h''
    · exact Or.inr (by simp only [List.map_cons, List.mem_cons]; exact Or.inr h'')

theorem foldOldest_some_isSome (l : List (String × CachedRecipe))
    (s : String) (t : Nat) :
    ((l.foldl
      (fun acc e =>
        if e.2.timestamp < acc.2 then (some e.1, e.2.timestamp) else acc)
      (some s, t)).1).isSome = true := by
  induction l generalizing s t with
  | nil => rfl
  | cons e rest ih =>
    simp only [List.foldl_cons]
    by_cases hc : e.2.timestamp < t
    · rw [if_pos hc]
      exact ih e.1 e.2.timestamp
    · rw [if_neg hc]
      exact ih s t

theorem findOldestKey_isSome (now : Nat) (cache : List (String × CachedRecipe))
    (h : ∃ e ∈ cache, e.2.timestamp < now) :
    ((findOldestKey now cache).1).isSome = true := by
  suffices H : ∀ (l : List (String × CachedRecipe)) (acc : Option String × Nat),
      (∃ e ∈ l, e.2.timestamp < acc.2) →
      ((l.foldl
        (fun acc e =>
          if e.2.timestamp < acc.2 then (some e.1, e.2.timestamp) else acc)
        acc).1).isSome = true by
    exact H cache (none, now) h
  intro l
  induction l with
  | nil =>
    rintro acc ⟨e, he, _⟩
    simp at he
  | cons e rest ih =>
    rintro acc ⟨w, hw, hwt⟩
    simp only [List.foldl_cons]
    by_cases hc : e.2.timestamp < acc.2
    · rw [if_pos hc]
      exact foldOldest_some_isSome rest e.1 e.2.timestamp
    · rw [if_neg hc]
      rcases List.mem_cons.mp hw with heq | hw'
      · exact absurd (heq ▸ hwt) hc
      · exact ih acc ⟨w, hw', hwt⟩

/-- A batch of MAX_CACHE_SIZE + 1 inserts of distinct recipe names, all
performed at the same clock reading (Date.now() has millisecond resolution,
so consecutive inserts can observe the same time). -/
def overflowSameTime : List (String × CachedRecipe) :=
  (List.range (MAX_CACHE_SIZE + 1)).foldl
    (fun c i => setCachedRecipe 0 c ("r" ++ toString i) spaghettiCarbonara "en" none)
    []

/-- The same batch with strictly increasing clock readings: insert i happens
at time i + 1. -/
def overflowIncreasing : List (String × CachedRecipe) :=
  (List.range (MAX_CACHE_SIZE + 1)).foldl
    (fun c i =>
      setCachedRecipe (i + 1) c ("r" ++ toString i) spaghettiCarbonara "en" none)
    []

/-- C4 counterexample: when all MAX_CACHE_SIZE resident records carry the
same timestamp as the insertion clock reading, the eviction scan (which only
considers records strictly older than Date.now()) finds nothing, no record
is evicted, and the store grows to MAX_CACHE_SIZE + 1 records — the claimed
capacity bound is violated and no least-recently-written record is removed. -/
theorem setCachedRecipe_capacity_violation :
    overflowSameTime.length = MAX_CACHE_SIZE + 1 ∧
    assocGet overflowSameTime "r0" ≠ none := by
  refine ⟨by decide, by decide⟩

/-- C4 (amended): the capacity bound and least-recently-written eviction
hold provided some resident record is strictly older than the insertion
time: (a) for every store of at most MAX_CACHE_SIZE records such that, when
full, some record's lastWrittenAt is strictly below now, setCachedRecipe
keeps the store at MAX_CACHE_SIZE records or fewer; (b) inserting
MAX_CACHE_SIZE + 1 distinct names at strictly increasing times evicts
exactly the least-recently-written record ("r0"), which becomes absent,
while the other MAX_CACHE_SIZE records remain reachable. -/
theorem setCachedRecipe_capacity_and_eviction :
    (∀ (now : Nat) (cache : List (String × CachedRecipe)) (name : String)
        (e : RecipeDetail) (lang : String) (tr : Option RecipeDetail),
        cache.length ≤ MAX_CACHE_SIZE →
        (cache.length = MAX_CACHE_SIZE → ∃ ent ∈ cache, ent.2.timestamp < now) →
        (setCachedRecipe now cache name e lang tr).length ≤ MAX_CACHE_SIZE) ∧
    (overflowIncreasing.length = MAX_CACHE_SIZE ∧
      assocGet overflowIncreasing "r0" = none ∧
      ∀ i ∈ List.range MAX_CACHE_SIZE,
        (assocGet overflowIncreasing ("r" ++ toString (i + 1))).isSome = true) := by
  constructor
  · intro now cache name e lang tr hlen hfull
    have h100 : MAX_CACHE_SIZE = 100 := rfl
    have hev : (evictOldestCache now cache).length + 1 ≤ MAX_CACHE_SIZE ∨
        (evictOldestCache now cache = cache ∧ cache.length < MAX_CACHE_SIZE) := by
      unfold evictOldestCache
      by_cases hlt : cache.length < MAX_CACHE_SIZE
      · right
        rw [if_pos hlt]
        exact ⟨rfl, hlt⟩
      · left
        have hfullEq : cache.length = MAX_CACHE_SIZE :=
          le_antisymm hlen (not_lt.mp hlt)
        obtain ⟨ent, hmem, hts⟩ := hfull hfullEq
        have hsome := findOldestKey_isSome now cache ⟨ent, hmem, hts⟩
        rw [if_neg hlt]
        obtain ⟨k, hk⟩ := Option.isSome_iff_exists.mp hsome
        rw [hk]
        have hkmem : k ∈ cache.map Prod.fst := findOldestKey_mem_keys now cache k hk
        have hlen' := length_assocDelete_of_mem_keys hkmem
        show (assocDelete cache k).length + 1 ≤ MAX_CACHE_SIZE
        omega
    simp only [setCachedRecipe]
    refine le_trans (length_assocSet_le _ _ _) ?_
    rcases hev with h | ⟨heq, hlt⟩
    · omega
    · rw [heq]
      omega
  · refine ⟨by decide, by decide, by decide⟩

/-- Witness for C4's amended capacity bound at a concrete one-record store
below capacity. -/
theorem setCachedRecipe_capacity_witness :
    (setCachedRecipe 5 expiryWitnessStore "Tiramisu" spaghettiCarbonara "en"
      none).length ≤ MAX_CACHE_SIZE :=
  setCachedRecipe_capacity_and_eviction.1 5 expiryWitnessStore "Tiramisu"
    spaghettiCarbonara "en" none (by decide) (by decide)


/-! Supporting lemmas for the fetchRecipeDetails theorems. -/

/-- translateRecipeContent never touches the recipe cache. -/
theorem translateRecipeContentD_recipeCache (env : Env) (st : GeminiState)
    (content : List RecipeDetail) (targetLang : String) :
    ((translateRecipeContentD env st content targetLang).2).recipeCache
      = st.recipeCache := by
  unfold translateRecipeContentD
  split
  · rfl
  · rcases hm : assocGet st.translationCache
      (getTransCacheKey ((serializeDetails content).take 100) "en" targetLang)
      with _ | v
    · rcases ht : env.transDetails content targetLang with _ | tr
      · simp only [hm, ht]
      · simp only [hm, ht]
    · rcases v with s | dl | sl
      · simp only [hm]
      · simp only [hm]
      · simp only [hm]

/-- A translation call with a cold memo and a failing provider returns the
content unchanged and only bumps the call counter. -/
theorem translateRecipeContentD_fail (env : Env) (st : GeminiState)
    (content : List RecipeDetail) (targetLang : String)
    (hlangb : (targetLang == "en") = false)
    (hmemo : assocGet st.translationCache
      (getTransCacheKey ((serializeDetails content).take 100) "en" targetLang) = none)
    (htrans : env.transDetails content targetLang = none) :
    translateRecipeContentD env st content targetLang
      = (content, { st with transCalls := st.transCalls + 1 }) := by
  unfold translateRecipeContentD
  rw [hlangb]
  simp only [Bool.false_eq_true, if_false, hmemo, htrans]

/-- First component of translateRecipeContentD_fail, stated as a rewrite
rule on the returned content. -/
theorem translateRecipeContentD_fst_fail (env : Env) (st : GeminiState)
    (content : List RecipeDetail) (targetLang : String)
    (hlangb : (targetLang == "en") = false)
    (hmemo : assocGet st.translationCache
      (getTransCacheKey ((serializeDetails content).take 100) "en" targetLang) = none)
    (htrans : env.transDetails content targetLang = none) :
    (translateRecipeContentD env st content targetLang).1 = content := by
  rw [translateRecipeContentD_fail env st content targetLang hlangb hmemo htrans]

/-- A cache hit leaves the store untouched. -/
theorem getCachedRecipe_fst_some {now : Nat} {cache : List (String × CachedRecipe)}
    {recipeName language : String} {r : RecipeDetail}
    (h : (getCachedRecipe now cache recipeName language).1 = some r) :
    getCachedRecipe now cache recipeName language = (some r, cache) := by
  simp only [getCachedRecipe] at h ⊢
  rcases hg : assocGet cache (getRecipeCacheKey recipeName) with _ | cached
  · simp only [hg] at h
    simp at h
  · simp only [hg] at h ⊢
    cases hv : isCacheValid now cached.timestamp with
    | false =>
      simp only [hv, Bool.false_eq_true, if_false] at h
      simp at h
    | true =>
      simp only [hv, if_true] at h ⊢
      cases hl : (language == "en") with
      | false =>
        simp only [hl, Bool.false_eq_true, if_false] at h ⊢
        have h' : assocGet cached.translations language = some r := h
        rw [h']
      | true =>
        simp only [hl, if_true] at h ⊢
        have h' : some cached.english = some r := h
        rw [h']

/-- After an English-lookup miss on a store with distinct keys, the name's
key is absent from the returned store. -/
theorem getCachedRecipe_none_en {now : Nat} {cache : List (String × CachedRecipe)}
    {recipeName : String}
    (hnodup : (cache.map Prod.fst).Nodup)
    (h : (getCachedRecipe now cache recipeName "en").1 = none) :
    assocGet (getCachedRecipe now cache recipeName "en").2
      (getRecipeCacheKey recipeName) = none := by
  simp only [getCachedRecipe] at h ⊢
  rcases hg : assocGet cache (getRecipeCacheKey recipeName) with _ | cached
  · simp only [hg]
  · simp only [hg] at h ⊢
    cases hv : isCacheValid now cached.timestamp with
    | false =>
      simp only [hv, Bool.false_eq_true, if_false]
      exact assocGet_assocDelete_self_of_nodup hnodup
    | true =>
      simp only [hv, if_true] at h
      simp at h

/-- Eviction only ever removes entries. -/
theorem evictOldestCache_sublist (now : Nat) (cache : List (String × CachedRecipe)) :
    List.Sublist (evictOldestCache now cache) cache := by
  unfold evictOldestCache
  split
  · exact List.Sublist.refl _
  · split
    · exact assocDelete_sublist _ _
    · exact List.Sublist.refl _

/-- Shape of the store after setCachedRecipe: the final record is written
with assocSet over the evicted store; its timestamp is now, it carries the
given translation for a non-English language, and its English content is
the given one on a fresh key or the pre-existing record's English content
otherwise. -/
theorem setCachedRecipe_spec (now : Nat) (cache : List (String × CachedRecipe))
    (recipeName : String) (englishRecipe : RecipeDetail) (language : String)
    (translatedRecipe : Option RecipeDetail) :
    ∃ rec : CachedRecipe,
      setCachedRecipe now cache recipeName englishRecipe language translatedRecipe
        = assocSet (evictOldestCache now cache) (getRecipeCacheKey recipeName) rec ∧
      rec.timestamp = now ∧
      (∀ t, translatedRecipe = some t → language ≠ "en" →
        assocGet rec.translations language = some t) ∧
      (assocGet (evictOldestCache now cache) (getRecipeCacheKey recipeName) = none →
        rec.english = englishRecipe) ∧
      (∀ c0, assocGet (evictOldestCache now cache) (getRecipeCacheKey recipeName)
          = some c0 → rec.english = c0.english) := by
  unfold setCachedRecipe
  rcases hg : assocGet (evictOldestCache now cache) (getRecipeCacheKey recipeName)
    with _ | c0 <;> simp only [hg]
  · rcases translatedRecipe with _ | t
    · exact ⟨_, rfl, rfl, fun t ht => Option.noConfusion ht, fun _ => rfl,
        fun c0 hc0 => Option.noConfusion hc0⟩
    · cases hl : (language != "en") with
      | false =>
        simp only [hl, Bool.false_eq_true, if_false]
        refine ⟨_, rfl, rfl, ?_, fun _ => rfl,
          fun c0 hc0 => Option.noConfusion hc0⟩
        intro t' ht' hlang
        exact absurd (by simpa using hl) hlang
      | true =>
        simp only [hl, if_true]
        refine ⟨_, rfl, rfl, ?_, fun _ => rfl,
          fun c0 hc0 => Option.noConfusion hc0⟩
        intro t' ht' hlang
        injection ht' with ht'
        subst ht'
        exact assocGet_assocSet_self _ _ _
  · rcases translatedRecipe with _ | t
    · refine ⟨_, rfl, rfl, fun t ht => Option.noConfusion ht, ?_, ?_⟩
      · intro hnone
        exact Option.noConfusion hnone
      · intro c0' hc0'
        injection hc0' with hc0'
        rw [hc0']
    · cases hl : (language != "en") with
      | false =>
        simp only [hl, Bool.false_eq_true, if_false]
        refine ⟨_, rfl, rfl, ?_, ?_, ?_⟩
        · intro t' ht' hlang
          exact absurd (by simpa using hl) hlang
        · intro hnone
          exact Option.noConfusion hnone
        · intro c0' hc0'
          injection hc0' with hc0'
          rw [hc0']
      | true =>
        simp only [hl, if_true]
        refine ⟨_, rfl, rfl, ?_, ?_, ?_⟩
        · intro t' ht' hlang
          injection ht' with ht'
          subst ht'
          exact assocGet_assocSet_self _ _ _
        · intro hnone
          exact Option.noConfusion hnone
        · intro c0' hc0'
          injection hc0' with hc0'
          rw [hc0']

/-- An English lookup right after the record was (re)written at the current
time returns the record's English content and leaves the store unchanged. -/
theorem getCachedRecipe_of_assocSet_en (now : Nat)
    (c1 : List (String × CachedRecipe)) (recipeName : String) (rec : CachedRecipe)
    (hts : rec.timestamp = now) :
    getCachedRecipe now (assocSet c1 (getRecipeCacheKey recipeName) rec)
      recipeName "en"
      = (some rec.english, assocSet c1 (getRecipeCacheKey recipeName) rec) := by
  unfold getCachedRecipe
  simp only [assocGet_assocSet_self]
  have hv : isCacheValid now rec.timestamp = true := by
    simp [isCacheValid, hts, CACHE_EXPIRY_MS]
  rw [hv]
  rfl

/-- A non-English lookup right after the record was (re)written at the
current time returns the record's cached translation for that language. -/
theorem getCachedRecipe_of_assocSet_lang (now : Nat)
    (c1 : List (String × CachedRecipe)) (recipeName language : String)
    (rec : CachedRecipe) (d : RecipeDetail)
    (hts : rec.timestamp = now)
    (hlangb : (language == "en") = false)
    (htr : assocGet rec.translations language = some d) :
    getCachedRecipe now (assocSet c1 (getRecipeCacheKey recipeName) rec)
      recipeName language
      = (some d, assocSet c1 (getRecipeCacheKey recipeName) rec) := by
  unfold getCachedRecipe
  simp only [assocGet_assocSet_self]
  have hv : isCacheValid now rec.timestamp = true := by
    simp [isCacheValid, hts, CACHE_EXPIRY_MS]
  rw [hv]
  simp only [if_true, hlangb, Bool.false_eq_true, if_false, htr]


/-- A lookup for an absent key is a miss that leaves the store unchanged. -/
theorem getCachedRecipe_of_absent (now : Nat) (cache : List (String × CachedRecipe))
    (recipeName language : String)
    (h : assocGet cache (getRecipeCacheKey recipeName) = none) :
    getCachedRecipe now cache recipeName language = (none, cache) := by
  unfold getCachedRecipe
  simp only [h]

/-- A key present in a store with distinct keys is found by assocGet. -/
theorem assocGet_of_mem_nodup {α : Type} {m : List (String × α)} {k : String} {v : α}
    (hnodup : (m.map Prod.fst).Nodup) (hmem : (k, v) ∈ m) :
    assocGet m k = some v := by
  induction m with
  | nil => simp at hmem
  | cons e rest ih =>
    simp only [List.map_cons, List.nodup_cons] at hnodup
    rcases List.mem_cons.mp hmem with heq | hmem'
    · rw [← heq]
      simp [assocGet]
    · have hek : e.1 ≠ k := by
        intro hk
        exact hnodup.1 (hk ▸ List.mem_map_of_mem Prod.fst hmem')
      have hb : (e.1 == k) = false := by simp [hek]
      simp only [assocGet, hb, Bool.false_eq_true, if_false]
      exact ih hnodup.2 hmem'

/-- The minimum scan only ever selects an entry strictly older than now. -/
theorem findOldestKey_mem_ts (now : Nat) (cache : List (String × CachedRecipe))
    (k : String) (h : (findOldestKey now cache).1 = some k) :
    ∃ r, (k, r) ∈ cache ∧ r.timestamp < now := by
  suffices H : ∀ (l : List (String × CachedRecipe)) (acc : Option String × Nat),
      acc.2 ≤ now →
      ((l.foldl
        (fun acc e =>
          if e.2.timestamp < acc.2 then (some e.1, e.2.timestamp) else acc)
        acc).1 = some k) →
      acc.1 = some k ∨ ∃ r, (k, r) ∈ l ∧ r.timestamp < now by
    rcases H cache (none, now) (le_refl now) h with h' | h'
    · simp at h'
    · exact h'
  intro l
  induction l with
  | nil => exact fun acc _ h' => Or.inl h'
  | cons e rest ih =>
    intro acc hacc h'
    simp only [List.foldl_cons] at h'
    by_cases hc : e.2.timestamp < acc.2
    · rw [if_pos hc] at h'
      rcases ih (some e.1, e.2.timestamp) (le_of_lt (lt_of_lt_of_le hc hacc)) h'
        with h'' | h''
      · simp only at h''
        injection h'' with h''
        refine Or.inr ⟨e.2, List.mem_cons.mpr (Or.inl ?_), lt_of_lt_of_le hc hacc⟩
        rw [← h'']
      · rcases h'' with ⟨r, hr, hrt⟩
        exact Or.inr ⟨r, List.mem_cons_of_mem _ hr, hrt⟩
    · rw [if_neg hc] at h'
      rcases ih acc hacc h' with h'' | h''
      · exact Or.inl h''
      · rcases h'' with ⟨r, hr, hrt⟩
        exact Or.inr ⟨r, List.mem_cons_of_mem _ hr, hrt⟩

/-- Eviction at a time equal to a record's timestamp never removes that
record: the scan only considers strictly older entries. -/
theorem assocGet_evict_of_now (now : Nat) (cache : List (String × CachedRecipe))
    (k : String) (rec : CachedRecipe)
    (hnodup : (cache.map Prod.fst).Nodup)
    (hget : assocGet cache k = some rec) (hts : rec.timestamp = now) :
    assocGet (evictOldestCache now cache) k = some rec := by
  unfold evictOldestCache
  split
  · exact hget
  · rcases hk : (findOldestKey now cache).1 with _ | k0 <;> simp only [hk]
    · exact hget
    · obtain ⟨r0, hmem0, hts0⟩ := findOldestKey_mem_ts now cache k0 hk
      have hne : k ≠ k0 := by
        intro hkk
        subst hkk
        rw [assocGet_of_mem_nodup hnodup hmem0] at hget
        injection hget with hget
        rw [hget, hts] at hts0
        exact lt_irrefl now hts0
      rw [assocGet_assocDelete_ne cache k0 k hne]
      exact hget

/-- English slot written at the current time over a store where the key was
absent: an English lookup returns the written content. -/
theorem store_en_tail (now : Nat) (c1 : List (String × CachedRecipe))
    (recipeName : String) (e : RecipeDetail)
    (habs : assocGet c1 (getRecipeCacheKey recipeName) = none) :
    getCachedRecipe now (setCachedRecipe now c1 recipeName e "en" none)
      recipeName "en"
      = (some e, setCachedRecipe now c1 recipeName e "en" none) := by
  obtain ⟨rec, hset, hts, _, hengN, _⟩ :=
    setCachedRecipe_spec now c1 recipeName e "en" none
  rw [hset, getCachedRecipe_of_assocSet_en now _ recipeName rec hts,
    hengN (assocGet_eq_none_of_sublist (evictOldestCache_sublist now c1) habs)]

/-- Translation slot written at the current time: a lookup in that language
returns the written translation. -/
theorem store_translate_tail (now : Nat) (c3 : List (String × CachedRecipe))
    (recipeName lang : String) (e d : RecipeDetail) (od : Option RecipeDetail)
    (hl : (lang == "en") = false)
    (hod : od = some d) :
    getCachedRecipe now (setCachedRecipe now c3 recipeName e lang od)
      recipeName lang
      = (some d, setCachedRecipe now c3 recipeName e lang od) := by
  obtain ⟨rec, hset, hts, htr, _, _⟩ :=
    setCachedRecipe_spec now c3 recipeName e lang od
  rw [hset]
  exact getCachedRecipe_of_assocSet_lang now _ recipeName lang rec d hts hl
    (htr d hod (by simpa using hl))

/-- The English slot survives the subsequent translation-slot write: after
writing English content for a fresh key and then writing any translation
outcome for the same name, an English lookup still returns the English
content. -/
theorem store_en_after_translate_tail (now : Nat)
    (c0 : List (String × CachedRecipe)) (recipeName lang : String)
    (e : RecipeDetail) (od : Option RecipeDetail)
    (hnodup : (c0.map Prod.fst).Nodup)
    (habs : assocGet c0 (getRecipeCacheKey recipeName) = none) :
    getCachedRecipe now
      (setCachedRecipe now (setCachedRecipe now c0 recipeName e "en" none)
        recipeName e lang od) recipeName "en"
      = (some e,
         setCachedRecipe now (setCachedRecipe now c0 recipeName e "en" none)
           recipeName e lang od) := by
  obtain ⟨rec1, hset1, hts1, _, hengN1, _⟩ :=
    setCachedRecipe_spec now c0 recipeName e "en" none
  have habs' := assocGet_eq_none_of_sublist (evictOldestCache_sublist now c0) habs
  have heng1 : rec1.english = e := hengN1 habs'
  have hnodupIn :
      (((setCachedRecipe now c0 recipeName e "en" none).map Prod.fst)).Nodup := by
    rw [hset1]
    exact keys_nodup_assocSet _ _
      (hnodup.sublist ((evictOldestCache_sublist now c0).map Prod.fst))
  have hget1 : assocGet (setCachedRecipe now c0 recipeName e "en" none)
      (getRecipeCacheKey recipeName) = some rec1 := by
    rw [hset1]
    exact assocGet_assocSet_self _ _ _
  have hgetEv := assocGet_evict_of_now now _ _ rec1 hnodupIn hget1 hts1
  obtain ⟨rec2, hset2, hts2, _, _, hengS2⟩ :=
    setCachedRecipe_spec now (setCachedRecipe now c0 recipeName e "en" none)
      recipeName e lang od
  rw [hset2, getCachedRecipe_of_assocSet_en now _ recipeName rec2 hts2,
    hengS2 rec1 hgetEv, heng1]

/-- After a resolution that returned content, the store answers the same
(name, language) query with that same content, without modification. -/
theorem fetchRecipeDetails_store (env : Env) (now : Nat) (st : GeminiState)
    (recipeName lang : String) (d : RecipeDetail) (st' : GeminiState)
    (hnodup : (st.recipeCache.map Prod.fst).Nodup)
    (hF : fetchRecipeDetails env now st recipeName lang = (some d, st')) :
    getCachedRecipe now st'.recipeCache recipeName lang
      = (some d, st'.recipeCache) := by
  simp only [fetchRecipeDetails] at hF
  rcases hg : getCachedRecipe now st.recipeCache recipeName lang with ⟨og, rc⟩
  rw [hg] at hF
  cases og with
  | some r =>
    injection hF with h1 h2
    injection h1 with h1
    subst h1
    subst h2
    have hfst : (getCachedRecipe now st.recipeCache recipeName lang).1 = some r := by
      rw [hg]
    have hq := getCachedRecipe_fst_some hfst
    have hrc : rc = st.recipeCache := by
      rw [hg] at hq
      injection hq with _ hq2
    show getCachedRecipe now rc recipeName lang = (some r, rc)
    rw [hrc]
    exact hq
  | none =>
    have habs : (lang == "en") = true →
        assocGet rc (getRecipeCacheKey recipeName) = none := by
      intro hl
      have hlang : lang = "en" := by simpa using hl
      subst hlang
      have h0 : (getCachedRecipe now st.recipeCache recipeName "en").1 = none := by
        rw [hg]
      have h1 := getCachedRecipe_none_en hnodup h0
      rw [hg] at h1
      exact h1
    rcases hs : assocGet staticRecipes recipeName with _ | e <;> rw [hs] at hF
    · rcases hgen : env.genDetail recipeName with _ | g <;> rw [hgen] at hF
      · injection hF with h1 _
        exact Option.noConfusion h1
      · cases hl : (lang == "en") with
        | true =>
          rw [hl] at hF
          simp only [if_true] at hF
          injection hF with h1 h2
          injection h1 with h1
          subst h1
          subst h2
          have hlang : lang = "en" := by simpa using hl
          subst hlang
          exact store_en_tail now rc recipeName g (habs rfl)
        | false =>
          rw [hl] at hF
          simp only [Bool.false_eq_true, if_false] at hF
          injection hF with h1 h2
          subst h2
          exact store_translate_tail now _ recipeName lang g d _ hl h1
    · cases hl : (lang == "en") with
      | true =>
        rw [hl] at hF
        simp only [if_true] at hF
        injection hF with h1 h2
        injection h1 with h1
        subst h1
        subst h2
        have hlang : lang = "en" := by simpa using hl
        subst hlang
        exact store_en_tail now rc recipeName e (habs rfl)
      | false =>
        rw [hl] at hF
        simp only [Bool.false_eq_true, if_false] at hF
        injection hF with h1 h2
        subst h2
        exact store_translate_tail now _ recipeName lang e d _ hl h1


/-- C1: whenever resolveRecipe(n, L) returns content, calling it again in
succession (same clock reading, no intervening clearCaches) returns the
identical content and leaves the whole state — recipe store, translation
memo and both provider-call counters — unchanged: the second call is
answered entirely from the recipe store with zero provider calls. -/
theorem fetchRecipeDetails_cache_idempotent (env : Env) (now : Nat)
    (st : GeminiState) (recipeName lang : String) (d : RecipeDetail)
    (hnodup : (st.recipeCache.map Prod.fst).Nodup)
    (hfirst : (fetchRecipeDetails env now st recipeName lang).1 = some d) :
    fetchRecipeDetails env now (fetchRecipeDetails env now st recipeName lang).2
      recipeName lang
      = (some d, (fetchRecipeDetails env now st recipeName lang).2) := by
  rcases hF : fetchRecipeDetails env now st recipeName lang with ⟨res, st'⟩
  have hres : res = some d := by
    rw [hF] at hfirst
    exact hfirst
  subst hres
  have hstore := fetchRecipeDetails_store env now st recipeName lang d st' hnodup hF
  show fetchRecipeDetails env now st' recipeName lang = (some d, st')
  simp only [fetchRecipeDetails]
  rw [hstore]

/-- Witness for C1: resolving the static "Spaghetti Carbonara" in English
from the empty initial state, then resolving it again. -/
theorem fetchRecipeDetails_cache_idempotent_witness :
    fetchRecipeDetails envAllFail 5
      (fetchRecipeDetails envAllFail 5 initState "Spaghetti Carbonara" "en").2
      "Spaghetti Carbonara" "en"
      = (some spaghettiCarbonara,
         (fetchRecipeDetails envAllFail 5 initState "Spaghetti Carbonara" "en").2) :=
  fetchRecipeDetails_cache_idempotent envAllFail 5 initState
    "Spaghetti Carbonara" "en" spaghettiCarbonara (by decide) rfl

/-- After any resolution of a name in a non-English language, started from a
store with distinct keys in which the name was absent, and in which the
English content was resolvable (statically or through the generation
provider), the canonical English content sits in the store's English slot
for that name — whatever the translation step did. -/
theorem fetchRecipeDetails_store_en (env : Env) (now : Nat) (st : GeminiState)
    (recipeName lang : String) (e : RecipeDetail) (res : Option RecipeDetail)
    (st' : GeminiState)
    (hnodup : (st.recipeCache.map Prod.fst).Nodup)
    (hempty : assocGet st.recipeCache (getRecipeCacheKey recipeName) = none)
    (hlangb : (lang == "en") = false)
    (hres : assocGet staticRecipes recipeName = some e ∨
      (assocGet staticRecipes recipeName = none ∧
        env.genDetail recipeName = some e))
    (hF : fetchRecipeDetails env now st recipeName lang = (res, st')) :
    getCachedRecipe now st'.recipeCache recipeName "en"
      = (some e, st'.recipeCache) := by
  simp only [fetchRecipeDetails] at hF
  rw [getCachedRecipe_of_absent now st.recipeCache recipeName lang hempty] at hF
  rcases hres with hstat | ⟨hstat, hgen⟩ <;> rw [hstat] at hF
  · rw [hlangb] at hF
    simp only [Bool.false_eq_true, if_false] at hF
    injection hF with h1 h2
    subst h2
    rw [translateRecipeContentD_recipeCache]
    exact store_en_after_translate_tail now st.recipeCache recipeName lang e _
      hnodup hempty
  · rw [hgen] at hF
    rw [hlangb] at hF
    simp only [Bool.false_eq_true, if_false] at hF
    injection hF with h1 h2
    subst h2
    rw [translateRecipeContentD_recipeCache]
    exact store_en_after_translate_tail now st.recipeCache recipeName lang e _
      hnodup hempty

/-- C2: when resolveRecipe(name, L) with L different from "en" runs against
the empty initial state and the canonical English content is obtainable
(from the static catalog, or from the generation provider when the catalog
misses), a subsequent resolveRecipe(name, "en") returns exactly that
canonical English content and leaves the state — including both
provider-call counters — unchanged, whatever the translation provider did
(including failing). -/
theorem fetchRecipeDetails_english_first_persistence (env : Env) (now : Nat)
    (recipeName lang : String) (e : RecipeDetail)
    (hlang : lang ≠ "en")
    (hres : assocGet staticRecipes recipeName = some e ∨
      (assocGet staticRecipes recipeName = none ∧
        env.genDetail recipeName = some e)) :
    fetchRecipeDetails env now
      (fetchRecipeDetails env now initState recipeName lang).2 recipeName "en"
      = (some e, (fetchRecipeDetails env now initState recipeName lang).2) := by
  have hlangb : (lang == "en") = false := by simpa using hlang
  rcases hF : fetchRecipeDetails env now initState recipeName lang with ⟨res, st'⟩
  have hstore := fetchRecipeDetails_store_en env now initState recipeName lang e
    res st' (by decide) rfl hlangb hres hF
  show fetchRecipeDetails env now st' recipeName "en" = (some e, st')
  simp only [fetchRecipeDetails]
  rw [hstore]

/-- Witness for C2: resolving "Spaghetti Carbonara" in Spanish from the
empty state (with every provider failing), then resolving it in English. -/
theorem fetchRecipeDetails_english_first_persistence_witness :
    fetchRecipeDetails envAllFail 5
      (fetchRecipeDetails envAllFail 5 initState "Spaghetti Carbonara" "es").2
      "Spaghetti Carbonara" "en"
      = (some spaghettiCarbonara,
         (fetchRecipeDetails envAllFail 5 initState "Spaghetti Carbonara" "es").2) :=
  fetchRecipeDetails_english_first_persistence envAllFail 5
    "Spaghetti Carbonara" "es" spaghettiCarbonara (by decide) (Or.inl rfl)

/-- C3 (amended): when the translation provider fails by throwing, being
unavailable, or returning a response whose JSON parse throws — every mode in
which translateRecipeContent's own try/catch fires — resolveRecipe(n, L) for
L different from "en", run against the empty initial state with the English
content resolvable, still returns the canonical English content, never an
absent result.  (The remaining mode, a response parsing to valid JSON of the
wrong shape, instead yields an absent result; see the counterexample.) -/
theorem fetchRecipeDetails_translation_failure_falls_back (env : Env)
    (now : Nat) (recipeName lang : String) (e : RecipeDetail)
    (hlang : lang ≠ "en")
    (htrans : ∀ c l, env.transDetails c l = none)
    (hres : assocGet staticRecipes recipeName = some e ∨
      (assocGet staticRecipes recipeName = none ∧
        env.genDetail recipeName = some e)) :
    (fetchRecipeDetails env now initState recipeName lang).1 = some e := by
  have hlangb : (lang == "en") = false := by simpa using hlang
  simp only [fetchRecipeDetails]
  rw [getCachedRecipe_of_absent now initState.recipeCache recipeName lang rfl]
  rcases hres with hstat | ⟨hstat, hgen⟩ <;> rw [hstat]
  · rw [hlangb]
    simp only [Bool.false_eq_true, if_false]
    rw [translateRecipeContentD_fst_fail]
    · rfl
    · exact hlangb
    · rfl
    · exact htrans _ _
  · rw [hgen, hlangb]
    simp only [Bool.false_eq_true, if_false]
    rw [translateRecipeContentD_fst_fail]
    · rfl
    · exact hlangb
    · rfl
    · exact htrans _ _

/-- Witness for C3's amended statement: Spanish resolution of the static
"Spaghetti Carbonara" with an always-failing translation provider returns
the canonical English content. -/
theorem fetchRecipeDetails_translation_failure_falls_back_witness :
    (fetchRecipeDetails envAllFail 5 initState "Spaghetti Carbonara" "es").1
      = some spaghettiCarbonara :=
  fetchRecipeDetails_translation_failure_falls_back envAllFail 5
    "Spaghetti Carbonara" "es" spaghettiCarbonara (by decide)
    (fun _ _ => rfl) (Or.inl rfl)

end RecipeFinder
